import Mathlib

/-!
Verification of the MedAsset Sentinel maintenance-compliance and
alert-lifecycle engine.

The Lean definitions below are a shallow embedding of the Python source:

* `src/models.py` — enums, `Equipment`, `MaintenanceLog`, `Alert`,
  `Alert.check_duplicate`, `Alert.resolve`,
  `Equipment.calculate_next_maintenance`, `Equipment.days_until_maintenance`.
* `src/services/alert_service.py` — `AlertService.create_alert`,
  `create_equipment_failure_alert`, `create_maintenance_alert`,
  `resolve_alert`, `resolve_maintenance_alerts`, `get_unresolved_alerts`.
* `src/services/maintenance_service.py` — `MaintenanceService.log_maintenance`,
  `check_maintenance_compliance`.

Modelling conventions:

* The SQLAlchemy session/SQLite store is an explicit `DB` value threaded
  through every operation.  A commit either persists the pending writes or
  fails; commit outcomes are injected as explicit `Bool` parameters
  (`commitOk`, or an `oracle : Nat → Bool` for the per-equipment commits of
  the compliance scan).  A failed commit rolls the session back, so the
  operation returns the incoming `DB` unchanged, exactly as
  `db.session.rollback()` restores the pre-transaction state.
* `datetime` values are UTC timestamps modelled as `Int` seconds;
  `date` values are `Int` day numbers and `pythonDateOf` is `datetime.date()`
  (the day containing the timestamp).  `date.today()` / `datetime.utcnow()`
  are passed in as `today` / `now` parameters.
* Python's `if equipment_id:` truthiness test (false for `None` and for `0`)
  is modelled by `pyTruthy`; `f"{x}"` on an `int | None` is `pyStr`.
* An SQL `UPDATE ... WHERE id = k` is a `List.map` that rewrites every row
  whose `id` equals `k`; primary keys are unique in the real store, so this
  coincides with mutating the single ORM object and committing.
* SQLAlchemy's `db.Enum` column stores the enum member *name* as a string
  (`severityDbString`), and SQLite's `ORDER BY ... DESC` on that column
  compares those strings lexicographically; `sortUnresolved` is a stable
  sort realising `ORDER BY severity DESC, created_at DESC` with ties left
  in rowid (insertion) order.
-/

/-- Alert classification types, from `models.AlertType`. -/
inductive AlertType where
  | UPCOMING_MAINTENANCE
  | OVERDUE_MAINTENANCE
  | EQUIPMENT_FAILURE
deriving DecidableEq

/-- Alert priority levels, from `models.AlertSeverity`. -/
inductive AlertSeverity where
  | INFO
  | WARNING
  | CRITICAL
deriving DecidableEq

/-- Equipment operational status, from `models.EquipmentStatus`. -/
inductive EquipmentStatus where
  | OK
  | WARNING
  | FAIL
deriving DecidableEq

/-- UTC timestamps (`datetime`) as integer seconds. -/
abbrev PyDateTime := Int

/-- Calendar dates (`date`) as integer day numbers. -/
abbrev PyDate := Int

/-- Python `datetime.date()`: the calendar day containing a timestamp. -/
def pythonDateOf (t : PyDateTime) : PyDate := Int.fdiv t 86400

/-- Python truthiness of an `int | None` value: `None` and `0` are falsy. -/
def pyTruthy : Option Nat → Bool
  | none => false
  | some n => n != 0

/-- Python string interpolation of an `int | None` value. -/
def pyStr : Option Int → String
  | none => "None"
  | some n => toString n

/-- Drop leading whitespace characters from a character list. -/
def dropLeadingWs : List Char → List Char
  | [] => []
  | c :: cs => if c.isWhitespace then dropLeadingWs cs else c :: cs

/-- Python `str.strip()`: remove leading and trailing whitespace. -/
def pyStrip (s : String) : String :=
  String.mk (List.reverse (dropLeadingWs (List.reverse (dropLeadingWs s.data))))

/-- Row of the `equipment` table, from `models.Equipment`. -/
structure Equipment where
  id : Nat
  name : String
  serial_number : String
  equipment_type : String
  location : Option String
  manufacturer : Option String
  maintenance_interval : Int
  last_maintenance_date : Option PyDate
  next_maintenance_date : PyDate
  current_status : EquipmentStatus
  created_at : PyDateTime
  updated_at : Option PyDateTime
deriving DecidableEq

/-- Row of the `maintenance_log` table, from `models.MaintenanceLog`. -/
structure MaintenanceLog where
  id : Nat
  equipment_id : Nat
  performed_at : PyDateTime
  performed_by : String
  notes : Option String
  created_at : PyDateTime
deriving DecidableEq

/-- Row of the `alert` table, from `models.Alert`. -/
structure Alert where
  id : Nat
  equipment_id : Option Nat
  alert_type : AlertType
  severity : AlertSeverity
  message : String
  created_at : PyDateTime
  resolved : Bool
  resolved_at : Option PyDateTime
deriving DecidableEq

/-- The persistent store: the three tables the core operates on, plus the
autoincrement counters that assign fresh primary keys. -/
structure DB where
  equipment : List Equipment
  alerts : List Alert
  logs : List MaintenanceLog
  next_alert_id : Nat
  next_log_id : Nat
deriving DecidableEq

/-- A freshly created, empty store. -/
def emptyDB : DB := { equipment := [], alerts := [], logs := [], next_alert_id := 1, next_log_id := 1 }

/-- From `models.Equipment.calculate_next_maintenance`: next maintenance date
is last maintenance date plus the interval when a last date is set, else
`date.today()` (the `today` parameter) plus the interval. -/
def Equipment.calculate_next_maintenance (today : PyDate) (e : Equipment) : Equipment :=
  match e.last_maintenance_date with
  | some last => { e with next_maintenance_date := last + e.maintenance_interval }
  | none => { e with next_maintenance_date := today + e.maintenance_interval }

/-- From `models.Equipment.days_until_maintenance`: signed day count until the
next maintenance date (negative when overdue). -/
def Equipment.days_until_maintenance (today : PyDate) (e : Equipment) : Int :=
  e.next_maintenance_date - today

/-- From `models.Alert.resolve`: mark the alert resolved at `now`. -/
def Alert.resolve_at (now : PyDateTime) (a : Alert) : Alert :=
  { a with resolved := true, resolved_at := some now }

/-- Row predicate of the duplicate query in `models.Alert.check_duplicate`
(and of the dedup-invariant count): unresolved alert with the given equipment
id and alert type. -/
def dupRow (equipment_id : Nat) (alert_type : AlertType) (a : Alert) : Bool :=
  decide (a.equipment_id = some equipment_id) && decide (a.alert_type = alert_type) && !a.resolved

theorem dupRow_iff (eid : Nat) (t : AlertType) (a : Alert) :
    dupRow eid t a = true ↔
      (a.equipment_id = some eid ∧ a.alert_type = t ∧ a.resolved = false) := by
  unfold dupRow
  cases a.resolved <;> simp

/-- From `models.Alert.check_duplicate`: is there an unresolved alert with the
given equipment id and alert type. -/
def Alert.check_duplicate (db : DB) (equipment_id : Nat) (alert_type : AlertType) : Bool :=
  db.alerts.any (dupRow equipment_id alert_type)

/-- From `alert_service.AlertService.create_alert`: dedup check (note the
Python truthiness test `if equipment_id and ...`), then insert-and-commit;
returns the created alert, or `none` on dedup suppression or commit failure
(after rollback). -/
def AlertService.create_alert (db : DB) (now : PyDateTime) (commitOk : Bool)
    (equipment_id : Option Nat) (alert_type : AlertType) (severity : AlertSeverity)
    (message : String) : Option Alert × DB :=
  if pyTruthy equipment_id && Alert.check_duplicate db (equipment_id.getD 0) alert_type then
    (none, db)
  else
    let alert : Alert :=
      { id := db.next_alert_id, equipment_id := equipment_id, alert_type := alert_type,
        severity := severity, message := message, created_at := now,
        resolved := false, resolved_at := none }
    if commitOk then
      (some alert, { db with alerts := db.alerts ++ [alert], next_alert_id := db.next_alert_id + 1 })
    else
      (none, db)

/-- From `alert_service.AlertService.create_equipment_failure_alert`. -/
def AlertService.create_equipment_failure_alert (db : DB) (now : PyDateTime) (commitOk : Bool)
    (equipment_id : Nat) : Option Alert × DB :=
  match db.equipment.find? (fun e => decide (e.id = equipment_id)) with
  | none => (none, db)
  | some equipment =>
    let message := "CRITICAL: " ++ equipment.name ++ " (" ++ equipment.serial_number ++ " has FAILED)"
    AlertService.create_alert db now commitOk (some equipment_id)
      AlertType.EQUIPMENT_FAILURE AlertSeverity.CRITICAL message

/-- From `alert_service.AlertService.create_maintenance_alert`: builds the
message and severity for the two maintenance alert types and delegates to
`create_alert`; returns whether an alert was actually created. -/
def AlertService.create_maintenance_alert (db : DB) (now : PyDateTime) (commitOk : Bool)
    (equipment_id : Nat) (alert_type : AlertType)
    (days_overdue : Option Int) (days_until : Option Int) : Bool × DB :=
  match db.equipment.find? (fun e => decide (e.id = equipment_id)) with
  | none => (false, db)
  | some equipment =>
    match alert_type with
    | AlertType.OVERDUE_MAINTENANCE =>
      let message := "OVERDUE: " ++ equipment.name ++ " (" ++ equipment.serial_number ++ ")"
        ++ "maintenance overdue by " ++ pyStr days_overdue ++ " days"
      let r := AlertService.create_alert db now commitOk (some equipment_id)
        alert_type AlertSeverity.CRITICAL message
      (r.1.isSome, r.2)
    | AlertType.UPCOMING_MAINTENANCE =>
      let message := "UPCOMING: " ++ equipment.name ++ " (" ++ equipment.serial_number ++ ")"
        ++ "maintenance due in " ++ pyStr days_until ++ " days"
      let r := AlertService.create_alert db now commitOk (some equipment_id)
        alert_type AlertSeverity.WARNING message
      (r.1.isSome, r.2)
    | AlertType.EQUIPMENT_FAILURE => (false, db)

/-- From `alert_service.AlertService.resolve_alert`: not-found and
already-resolved failures, else mark resolved and commit (rolling back to the
incoming state on commit failure). -/
def AlertService.resolve_alert (db : DB) (now : PyDateTime) (commitOk : Bool)
    (alert_id : Nat) : (Bool × Option String) × DB :=
  match db.alerts.find? (fun a => decide (a.id = alert_id)) with
  | none => ((false, some "Alert not found"), db)
  | some alert =>
    if alert.resolved then
      ((false, some "Alert already resolved"), db)
    else
      let db' := { db with alerts := db.alerts.map (fun a =>
        if a.id = alert_id then Alert.resolve_at now a else a) }
      if commitOk then ((true, none), db')
      else ((false, some "Database error"), db)

/-- Does the alert type belong to `[UPCOMING_MAINTENANCE, OVERDUE_MAINTENANCE]`,
the list used by `resolve_maintenance_alerts`. -/
def isMaintenanceType (t : AlertType) : Bool :=
  decide (t = AlertType.UPCOMING_MAINTENANCE) || decide (t = AlertType.OVERDUE_MAINTENANCE)

/-- The row filter of `resolve_maintenance_alerts`: unresolved maintenance
alerts of the given equipment. -/
def maintenanceAlertRow (equipment_id : Nat) (a : Alert) : Bool :=
  decide (a.equipment_id = some equipment_id) && !a.resolved && isMaintenanceType a.alert_type

/-- From `alert_service.AlertService.resolve_maintenance_alerts`: resolve, in
one batch, every unresolved UPCOMING/OVERDUE maintenance alert of the
equipment; commit only when at least one row matched, and on commit failure
roll back and return count 0. -/
def AlertService.resolve_maintenance_alerts (db : DB) (now : PyDateTime) (commitOk : Bool)
    (equipment_id : Nat) : Nat × DB :=
  let count := (db.alerts.filter (maintenanceAlertRow equipment_id)).length
  if count > 0 then
    if commitOk then
      (count, { db with alerts := db.alerts.map (fun a =>
        if maintenanceAlertRow equipment_id a then Alert.resolve_at now a else a) })
    else
      (0, db)
  else
    (count, db)

/-- Stored string form of a severity: SQLAlchemy's `db.Enum` column persists
the enum member name. -/
def severityDbString : AlertSeverity → String
  | AlertSeverity.INFO => "INFO"
  | AlertSeverity.WARNING => "WARNING"
  | AlertSeverity.CRITICAL => "CRITICAL"

/-- SQLite BINARY collation on the code points of two strings: is the first
strictly smaller. -/
def charListLt : List Char → List Char → Bool
  | [], [] => false
  | [], _ :: _ => true
  | _ :: _, [] => false
  | a :: as, b :: bs =>
    if a.toNat < b.toNat then true
    else if b.toNat < a.toNat then false
    else charListLt as bs

/-- String comparison as performed by the database when ordering a VARCHAR
column. -/
def dbStringLt (s t : String) : Bool := charListLt s.data t.data

/-- SQL ordering of `ORDER BY severity DESC, created_at DESC`: row `a` sorts
strictly before row `b`. The severity column holds `severityDbString`, so the
first key is a lexicographic string comparison. -/
def alertOrderBefore (a b : Alert) : Bool :=
  dbStringLt (severityDbString b.severity) (severityDbString a.severity) ||
  (decide (severityDbString a.severity = severityDbString b.severity) && decide (b.created_at < a.created_at))

/-- Stable insertion of a row into an already ordered list: the new row goes
after every earlier row that does not sort strictly after it, so rows with
equal sort keys keep their rowid (insertion) order. -/
def insertOrdered (x : Alert) : List Alert → List Alert
  | [] => [x]
  | y :: ys => if alertOrderBefore x y then x :: y :: ys else y :: insertOrdered x ys

/-- Stable sort realising the SQL `ORDER BY` of `get_unresolved_alerts`. -/
def sortUnresolved (l : List Alert) : List Alert :=
  l.foldl (fun acc x => insertOrdered x acc) []

/-- Python truthiness applied to the `limit` argument (`if limit:`): `None`
and `0` both mean no limit. -/
def applyLimit : Option Nat → List Alert → List Alert
  | none, l => l
  | some n, l => if n = 0 then l else l.take n

/-- From `alert_service.AlertService.get_unresolved_alerts`: unresolved alerts
ordered by the severity column descending then creation timestamp descending,
optionally limited. Read-only: the store is not changed. -/
def AlertService.get_unresolved_alerts (db : DB) (limit : Option Nat) : List Alert :=
  applyLimit limit (sortUnresolved (db.alerts.filter (fun a => !a.resolved)))

/-- The immutable `MaintenanceLog` row appended by `log_maintenance`. -/
def logEntry (db : DB) (now : PyDateTime) (equipment_id : Nat) (performed_by : String)
    (notes : Option String) (performed_at : PyDateTime) : MaintenanceLog :=
  { id := db.next_log_id, equipment_id := equipment_id, performed_at := performed_at,
    performed_by := pyStrip performed_by, notes := notes, created_at := now }

/-- The equipment row after `log_maintenance` sets the last maintenance date,
recalculates the next one via `calculate_next_maintenance`, and stamps
`updated_at`. -/
def updatedEquipment (now : PyDateTime) (performed_at : PyDateTime) (e : Equipment) : Equipment :=
  { Equipment.calculate_next_maintenance (pythonDateOf now)
      { e with last_maintenance_date := some (pythonDateOf performed_at) } with
    updated_at := some now }

/-- The store after the first commit of `log_maintenance`: log row appended,
equipment row updated, alerts untouched. -/
def logCommitDB (db : DB) (equipment_id : Nat) (log : MaintenanceLog)
    (e'' : Equipment) : DB :=
  { db with
    logs := db.logs ++ [log]
    next_log_id := db.next_log_id + 1
    equipment := db.equipment.map (fun e => if e.id = equipment_id then e'' else e) }

/-- From `maintenance_service.MaintenanceService.log_maintenance`: validate,
append the log row and update the equipment's maintenance dates in one commit
(`commitOk1`), then resolve the equipment's outstanding maintenance alerts in
a second, separate commit (`commitOk2`, inside `resolve_maintenance_alerts`).
`now` plays both `datetime.utcnow()` and, through `pythonDateOf`, the
`date.today()` used by `calculate_next_maintenance`. -/
def MaintenanceService.log_maintenance (db : DB) (now : PyDateTime)
    (commitOk1 commitOk2 : Bool) (equipment_id : Nat) (performed_by : String)
    (notes : Option String) (performed_at : Option PyDateTime) :
    (Option MaintenanceLog × Option String) × DB :=
  match db.equipment.find? (fun e => decide (e.id = equipment_id)) with
  | none => ((none, some "Equipment not found"), db)
  | some equipment =>
    if pyStrip performed_by = "" then
      ((none, some "Performed by is required"), db)
    else
      let performed_at := performed_at.getD now
      if now < performed_at then
        ((none, some "Maintenance date cannot be in the future"), db)
      else
        let log := logEntry db now equipment_id performed_by notes performed_at
        let equipment'' := updatedEquipment now performed_at equipment
        if commitOk1 then
          let db1 := logCommitDB db equipment_id log equipment''
          let r := AlertService.resolve_maintenance_alerts db1 now commitOk2 equipment_id
          ((some log, none), r.2)
        else
          ((none, some "Database error"), db)

/-- Summary dict returned by `check_maintenance_compliance`. -/
structure ComplianceSummary where
  total_equipment : Nat
  upcoming_alerts_created : Nat
  overdue_alerts_created : Nat
  checked_at : PyDateTime
deriving DecidableEq

/-- One iteration of the compliance loop, from the body of
`check_maintenance_compliance`: strictly overdue items request an
OVERDUE_MAINTENANCE alert with `abs(days_until_maintenance())` days overdue;
items due within the inclusive 7-day window request an UPCOMING_MAINTENANCE
alert with `days_until_maintenance()` days until; anything else is untouched.
The accumulator is (upcoming created, overdue created, store). -/
def complianceStep (today : PyDate) (now : PyDateTime) (commitOk : Bool)
    (acc : Nat × Nat × DB) (equipment : Equipment) : Nat × Nat × DB :=
  let next_date := equipment.next_maintenance_date
  if next_date < today then
    let r := AlertService.create_maintenance_alert acc.2.2 now commitOk equipment.id
      AlertType.OVERDUE_MAINTENANCE
      (some ((Equipment.days_until_maintenance today equipment).natAbs : Int)) none
    if r.1 then (acc.1, acc.2.1 + 1, r.2) else (acc.1, acc.2.1, r.2)
  else if today ≤ next_date ∧ next_date ≤ today + 7 then
    let r := AlertService.create_maintenance_alert acc.2.2 now commitOk equipment.id
      AlertType.UPCOMING_MAINTENANCE
      none (some (Equipment.days_until_maintenance today equipment))
    if r.1 then (acc.1 + 1, acc.2.1, r.2) else (acc.1, acc.2.1, r.2)
  else
    acc

/-- The `for equipment in all_equipment` loop of
`check_maintenance_compliance`; the index feeds the commit oracle. -/
def complianceLoop (today : PyDate) (now : PyDateTime) (oracle : Nat → Bool) :
    Nat → Nat × Nat × DB → List Equipment → Nat × Nat × DB
  | _, acc, [] => acc
  | i, acc, e :: rest =>
    complianceLoop today now oracle (i + 1) (complianceStep today now (oracle i) acc e) rest

/-- From `maintenance_service.MaintenanceService.check_maintenance_compliance`:
scan every equipment row once, drive the Alert Engine, and return the summary
dict. `today` is `date.today()`, `now` is `datetime.utcnow()`, and `oracle i`
is the commit outcome of the alert insert attempted for the i-th row. -/
def MaintenanceService.check_maintenance_compliance (db : DB) (today : PyDate)
    (now : PyDateTime) (oracle : Nat → Bool) : ComplianceSummary × DB :=
  let r := complianceLoop today now oracle 0 (0, 0, db) db.equipment
  ({ total_equipment := db.equipment.length, upcoming_alerts_created := r.1,
     overdue_alerts_created := r.2.1, checked_at := now }, r.2.2)

/-- The core operations named by the dedup-invariant claim, plus
`log_maintenance`; each constructor carries the operation's arguments and the
injected commit outcomes. -/
inductive Op where
  | createAlert (equipment_id : Option Nat) (alert_type : AlertType)
      (severity : AlertSeverity) (message : String) (now : PyDateTime) (commitOk : Bool)
  | createFailureAlert (equipment_id : Nat) (now : PyDateTime) (commitOk : Bool)
  | createMaintAlert (equipment_id : Nat) (alert_type : AlertType)
      (days_overdue days_until : Option Int) (now : PyDateTime) (commitOk : Bool)
  | resolveOne (alert_id : Nat) (now : PyDateTime) (commitOk : Bool)
  | resolveMaint (equipment_id : Nat) (now : PyDateTime) (commitOk : Bool)
  | checkCompliance (today : PyDate) (now : PyDateTime) (oracle : Nat → Bool)
  | logMaintenance (equipment_id : Nat) (performed_by : String) (notes : Option String)
      (performed_at : Option PyDateTime) (now : PyDateTime) (commitOk1 commitOk2 : Bool)

/-- Effect of one core operation on the store. -/
def applyOp (db : DB) : Op → DB
  | Op.createAlert eid t sev msg now ok => (AlertService.create_alert db now ok eid t sev msg).2
  | Op.createFailureAlert eid now ok => (AlertService.create_equipment_failure_alert db now ok eid).2
  | Op.createMaintAlert eid t dov dun now ok =>
      (AlertService.create_maintenance_alert db now ok eid t dov dun).2
  | Op.resolveOne aid now ok => (AlertService.resolve_alert db now ok aid).2
  | Op.resolveMaint eid now ok => (AlertService.resolve_maintenance_alerts db now ok eid).2
  | Op.checkCompliance today now oracle =>
      (MaintenanceService.check_maintenance_compliance db today now oracle).2
  | Op.logMaintenance eid pb notes pat now ok1 ok2 =>
      (MaintenanceService.log_maintenance db now ok1 ok2 eid pb notes pat).2

/-- Run a sequence of core operations. -/
def runOps (db : DB) (ops : List Op) : DB := ops.foldl applyOp db

/-- Number of unresolved alerts in the store carrying the given equipment id
and alert type — the quantity bounded by the dedup invariant. -/
def unresolvedCount (db : DB) (equipment_id : Nat) (alert_type : AlertType) : Nat :=
  (db.alerts.filter (dupRow equipment_id alert_type)).length

/-- Number of alerts (resolved or not) of a given type in the store. -/
def typeCount (db : DB) (alert_type : AlertType) : Nat :=
  (db.alerts.filter (fun a => decide (a.alert_type = alert_type))).length

/-! ### List-level helper lemmas -/

theorem find?_append_left {α : Type} {p : α → Bool} {l₁ l₂ : List α} {a : α}
    (h : l₁.find? p = some a) : (l₁ ++ l₂).find? p = some a := by
  induction l₁ with
  | nil => simp [List.find?] at h
  | cons x xs ih =>
    rw [List.cons_append]
    cases hx : p x with
    | true =>
      rw [List.find?_cons_of_pos _ hx] at h
      rw [List.find?_cons_of_pos _ hx]
      exact h
    | false =>
      have hx' : ¬p x = true := by rw [hx]; exact Bool.false_ne_true
      rw [List.find?_cons_of_neg _ hx'] at h
      rw [List.find?_cons_of_neg _ hx']
      exact ih h

theorem find?_map_pred {α : Type} (f : α → α) (p : α → Bool)
    (hp : ∀ x, p (f x) = p x) :
    ∀ l : List α, (l.map f).find? p = Option.map f (l.find? p) := by
  intro l
  induction l with
  | nil => rfl
  | cons x xs ih =>
    rw [List.map_cons]
    cases hx : p x with
    | true =>
      rw [List.find?_cons_of_pos _ ((hp x).trans hx), List.find?_cons_of_pos _ hx]
      rfl
    | false =>
      rw [List.find?_cons_of_neg _ (p := p) (by rw [hp x, hx]; exact Bool.false_ne_true),
        List.find?_cons_of_neg _ (p := p) (by rw [hx]; exact Bool.false_ne_true)]
      exact ih

theorem length_filter_map_le {α : Type} (f : α → α) (p : α → Bool)
    (h : ∀ x, p (f x) = true → p x = true) :
    ∀ l : List α, ((l.map f).filter p).length ≤ (l.filter p).length := by
  intro l
  induction l with
  | nil => exact Nat.le_refl _
  | cons x xs ih =>
    rw [List.map_cons, List.filter_cons, List.filter_cons]
    cases hfx : p (f x) with
    | true =>
      rw [h x hfx]
      simpa using Nat.succ_le_succ ih
    | false =>
      cases hx : p x with
      | true => simpa using Nat.le_succ_of_le ih
      | false => simpa using ih

/-! ### Shape lemmas for the service operations -/

/-- Abbreviation for the alert row a successful `create_alert` inserts. -/
def insertedAlert (db : DB) (now : PyDateTime) (eid : Option Nat) (t : AlertType)
    (sev : AlertSeverity) (msg : String) : Alert :=
  { id := db.next_alert_id, equipment_id := eid, alert_type := t, severity := sev,
    message := msg, created_at := now, resolved := false, resolved_at := none }

/-- Abbreviation for the store a successful `create_alert` leaves behind. -/
def insertedDB (db : DB) (now : PyDateTime) (eid : Option Nat) (t : AlertType)
    (sev : AlertSeverity) (msg : String) : DB :=
  { db with
    alerts := db.alerts ++ [insertedAlert db now eid t sev msg]
    next_alert_id := db.next_alert_id + 1 }

theorem create_alert_shape (db : DB) (now : PyDateTime) (ok : Bool) (eid : Option Nat)
    (t : AlertType) (sev : AlertSeverity) (msg : String) :
    ((AlertService.create_alert db now ok eid t sev msg).1 = none ∧
      (AlertService.create_alert db now ok eid t sev msg).2 = db) ∨
    ((AlertService.create_alert db now ok eid t sev msg).1 =
        some (insertedAlert db now eid t sev msg) ∧
      (AlertService.create_alert db now ok eid t sev msg).2 =
        insertedDB db now eid t sev msg) := by
  unfold AlertService.create_alert insertedDB insertedAlert
  split_ifs
  · exact Or.inl ⟨rfl, rfl⟩
  · exact Or.inr ⟨rfl, rfl⟩
  · exact Or.inl ⟨rfl, rfl⟩

theorem create_alert_equipment_eq (db : DB) (now : PyDateTime) (ok : Bool) (eid : Option Nat)
    (t : AlertType) (sev : AlertSeverity) (msg : String) :
    (AlertService.create_alert db now ok eid t sev msg).2.equipment = db.equipment := by
  rcases create_alert_shape db now ok eid t sev msg with ⟨-, h⟩ | ⟨-, h⟩ <;> simp [h, insertedDB]

theorem create_alert_logs_eq (db : DB) (now : PyDateTime) (ok : Bool) (eid : Option Nat)
    (t : AlertType) (sev : AlertSeverity) (msg : String) :
    (AlertService.create_alert db now ok eid t sev msg).2.logs = db.logs := by
  rcases create_alert_shape db now ok eid t sev msg with ⟨-, h⟩ | ⟨-, h⟩ <;> simp [h, insertedDB]

theorem create_alert_alerts_append (db : DB) (now : PyDateTime) (ok : Bool) (eid : Option Nat)
    (t : AlertType) (sev : AlertSeverity) (msg : String) :
    ∃ s, (AlertService.create_alert db now ok eid t sev msg).2.alerts = db.alerts ++ s := by
  rcases create_alert_shape db now ok eid t sev msg with ⟨-, h⟩ | ⟨-, h⟩
  · exact ⟨[], by rw [h, List.append_nil]⟩
  · exact ⟨[insertedAlert db now eid t sev msg], by rw [h]; rfl⟩

theorem create_alert_suppressed (db : DB) (now : PyDateTime) (ok : Bool) (eid : Nat)
    (t : AlertType) (sev : AlertSeverity) (msg : String)
    (h0 : eid ≠ 0) (hd : Alert.check_duplicate db eid t = true) :
    AlertService.create_alert db now ok (some eid) t sev msg = (none, db) := by
  unfold AlertService.create_alert
  have ht : pyTruthy (some eid) = true := by
    unfold pyTruthy
    exact bne_iff_ne.mpr h0
  have : (pyTruthy (some eid) && Alert.check_duplicate db ((some eid).getD 0) t) = true := by
    rw [ht, Option.getD_some, hd]
    rfl
  rw [if_pos this]

theorem check_duplicate_append_right (db : DB) (s : List Alert) (eid : Nat) (t : AlertType)
    (h : Alert.check_duplicate db eid t = true) :
    Alert.check_duplicate { db with alerts := db.alerts ++ s } eid t = true := by
  unfold Alert.check_duplicate at h ⊢
  rw [List.any_append]
  rw [h]
  rfl

theorem check_duplicate_of_alerts_append (db db' : DB) (s : List Alert) (eid : Nat) (t : AlertType)
    (halerts : db'.alerts = db.alerts ++ s)
    (h : Alert.check_duplicate db eid t = true) :
    Alert.check_duplicate db' eid t = true := by
  unfold Alert.check_duplicate at h ⊢
  rw [halerts, List.any_append, h]
  rfl

theorem check_duplicate_insertedDB (db : DB) (now : PyDateTime) (eid : Nat)
    (t : AlertType) (sev : AlertSeverity) (msg : String) :
    Alert.check_duplicate (insertedDB db now (some eid) t sev msg) eid t = true := by
  unfold Alert.check_duplicate insertedDB insertedAlert dupRow
  simp

theorem create_maintenance_alert_spec (db : DB) (now : PyDateTime) (ok : Bool) (eid : Nat)
    (t : AlertType) (dov dun : Option Int) :
    ((AlertService.create_maintenance_alert db now ok eid t dov dun).1 = false →
      (AlertService.create_maintenance_alert db now ok eid t dov dun).2 = db) ∧
    ((AlertService.create_maintenance_alert db now ok eid t dov dun).1 = true →
      ∃ sev msg,
        (AlertService.create_maintenance_alert db now ok eid t dov dun).2 =
          insertedDB db now (some eid) t sev msg) := by
  unfold AlertService.create_maintenance_alert
  cases hf : db.equipment.find? (fun e => decide (e.id = eid)) with
  | none => exact ⟨fun _ => rfl, fun h => absurd h (by simp)⟩
  | some x =>
    cases t with
    | OVERDUE_MAINTENANCE =>
      dsimp only
      rcases create_alert_shape db now ok (some eid) AlertType.OVERDUE_MAINTENANCE
          AlertSeverity.CRITICAL
          ("OVERDUE: " ++ x.name ++ " (" ++ x.serial_number ++ ")"
            ++ "maintenance overdue by " ++ pyStr dov ++ " days")
        with ⟨h1, h2⟩ | ⟨h1, h2⟩
      · rw [h1, h2]
        exact ⟨fun _ => rfl, fun h => absurd h (by simp)⟩
      · rw [h1, h2]
        exact ⟨fun h => absurd h (by simp), fun _ => ⟨_, _, rfl⟩⟩
    | UPCOMING_MAINTENANCE =>
      dsimp only
      rcases create_alert_shape db now ok (some eid) AlertType.UPCOMING_MAINTENANCE
          AlertSeverity.WARNING
          ("UPCOMING: " ++ x.name ++ " (" ++ x.serial_number ++ ")"
            ++ "maintenance due in " ++ pyStr dun ++ " days")
        with ⟨h1, h2⟩ | ⟨h1, h2⟩
      · rw [h1, h2]
        exact ⟨fun _ => rfl, fun h => absurd h (by simp)⟩
      · rw [h1, h2]
        exact ⟨fun h => absurd h (by simp), fun _ => ⟨_, _, rfl⟩⟩
    | EQUIPMENT_FAILURE => exact ⟨fun _ => rfl, fun h => absurd h (by simp)⟩

theorem create_maintenance_alert_equipment_eq (db : DB) (now : PyDateTime) (ok : Bool)
    (eid : Nat) (t : AlertType) (dov dun : Option Int) :
    (AlertService.create_maintenance_alert db now ok eid t dov dun).2.equipment = db.equipment := by
  cases h : (AlertService.create_maintenance_alert db now ok eid t dov dun).1 with
  | false => rw [(create_maintenance_alert_spec db now ok eid t dov dun).1 h]
  | true =>
    obtain ⟨sev, msg, h2⟩ := (create_maintenance_alert_spec db now ok eid t dov dun).2 h
    rw [h2]
    rfl

theorem create_maintenance_alert_logs_eq (db : DB) (now : PyDateTime) (ok : Bool)
    (eid : Nat) (t : AlertType) (dov dun : Option Int) :
    (AlertService.create_maintenance_alert db now ok eid t dov dun).2.logs = db.logs := by
  cases h : (AlertService.create_maintenance_alert db now ok eid t dov dun).1 with
  | false => rw [(create_maintenance_alert_spec db now ok eid t dov dun).1 h]
  | true =>
    obtain ⟨sev, msg, h2⟩ := (create_maintenance_alert_spec db now ok eid t dov dun).2 h
    rw [h2]
    rfl

theorem create_maintenance_alert_alerts_append (db : DB) (now : PyDateTime) (ok : Bool)
    (eid : Nat) (t : AlertType) (dov dun : Option Int) :
    ∃ s, (AlertService.create_maintenance_alert db now ok eid t dov dun).2.alerts = db.alerts ++ s := by
  cases h : (AlertService.create_maintenance_alert db now ok eid t dov dun).1 with
  | false =>
    rw [(create_maintenance_alert_spec db now ok eid t dov dun).1 h]
    exact ⟨[], (List.append_nil _).symm⟩
  | true =>
    obtain ⟨sev, msg, h2⟩ := (create_maintenance_alert_spec db now ok eid t dov dun).2 h
    rw [h2]
    exact ⟨[insertedAlert db now (some eid) t sev msg], rfl⟩

theorem resolve_alert_shape (db : DB) (now : PyDateTime) (ok : Bool) (aid : Nat) :
    (AlertService.resolve_alert db now ok aid).2 = db ∨
    (∃ b, db.alerts.find? (fun a => decide (a.id = aid)) = some b ∧ b.resolved = false ∧ ok = true ∧
      (AlertService.resolve_alert db now ok aid).2 =
        { db with alerts := db.alerts.map (fun a =>
          if a.id = aid then Alert.resolve_at now a else a) }) := by
  have hrw : ∀ b, db.alerts.find? (fun a => decide (a.id = aid)) = some b →
      AlertService.resolve_alert db now ok aid =
        (if b.resolved = true then ((false, some "Alert already resolved"), db)
         else if ok = true then ((true, none), { db with alerts := db.alerts.map (fun a =>
            if a.id = aid then Alert.resolve_at now a else a) })
         else ((false, some "Database error"), db)) := by
    intro b hf
    unfold AlertService.resolve_alert
    rw [hf]
  cases hf : db.alerts.find? (fun a => decide (a.id = aid)) with
  | none =>
    refine Or.inl ?_
    unfold AlertService.resolve_alert
    rw [hf]
  | some b =>
    rw [hrw b hf]
    cases hb : b.resolved with
    | true => exact Or.inl rfl
    | false =>
      cases ok with
      | true => exact Or.inr ⟨b, rfl, hb, rfl, rfl⟩
      | false => exact Or.inl rfl

theorem resolve_maintenance_alerts_shape (db : DB) (now : PyDateTime) (ok : Bool) (eid : Nat) :
    (AlertService.resolve_maintenance_alerts db now ok eid).2 = db ∨
    (AlertService.resolve_maintenance_alerts db now ok eid).2 =
      { db with alerts := db.alerts.map (fun a =>
        if maintenanceAlertRow eid a then Alert.resolve_at now a else a) } := by
  unfold AlertService.resolve_maintenance_alerts
  dsimp only
  split
  · split
    · exact Or.inr rfl
    · exact Or.inl rfl
  · exact Or.inl rfl

theorem complianceStep_equipment (today : PyDate) (now : PyDateTime) (ok : Bool)
    (acc : Nat × Nat × DB) (e : Equipment) :
    (complianceStep today now ok acc e).2.2.equipment = acc.2.2.equipment := by
  unfold complianceStep
  dsimp only
  split
  · split
    · exact create_maintenance_alert_equipment_eq ..
    · exact create_maintenance_alert_equipment_eq ..
  · split
    · split
      · exact create_maintenance_alert_equipment_eq ..
      · exact create_maintenance_alert_equipment_eq ..
    · rfl

theorem complianceStep_alerts_append (today : PyDate) (now : PyDateTime) (ok : Bool)
    (acc : Nat × Nat × DB) (e : Equipment) :
    ∃ s, (complianceStep today now ok acc e).2.2.alerts = acc.2.2.alerts ++ s := by
  unfold complianceStep
  dsimp only
  split
  · split
    · exact create_maintenance_alert_alerts_append ..
    · exact create_maintenance_alert_alerts_append ..
  · split
    · split
      · exact create_maintenance_alert_alerts_append ..
      · exact create_maintenance_alert_alerts_append ..
    · exact ⟨[], (List.append_nil _).symm⟩

theorem complianceLoop_equipment (today : PyDate) (now : PyDateTime) (oracle : Nat → Bool) :
    ∀ (l : List Equipment) (i : Nat) (acc : Nat × Nat × DB),
    (complianceLoop today now oracle i acc l).2.2.equipment = acc.2.2.equipment := by
  intro l
  induction l with
  | nil => intro i acc; rfl
  | cons e rest ih =>
    intro i acc
    simp only [complianceLoop]
    rw [ih]
    exact complianceStep_equipment ..

theorem complianceLoop_alerts_append (today : PyDate) (now : PyDateTime) (oracle : Nat → Bool) :
    ∀ (l : List Equipment) (i : Nat) (acc : Nat × Nat × DB),
    ∃ s, (complianceLoop today now oracle i acc l).2.2.alerts = acc.2.2.alerts ++ s := by
  intro l
  induction l with
  | nil => intro i acc; exact ⟨[], (List.append_nil _).symm⟩
  | cons e rest ih =>
    intro i acc
    simp only [complianceLoop]
    obtain ⟨s1, h1⟩ := complianceStep_alerts_append today now (oracle i) acc e
    obtain ⟨s2, h2⟩ := ih (i + 1) (complianceStep today now (oracle i) acc e)
    exact ⟨s1 ++ s2, by rw [h2, h1, List.append_assoc]⟩

theorem complianceLoop_dup_mono (today : PyDate) (now : PyDateTime) (oracle : Nat → Bool) :
    ∀ (l : List Equipment) (i : Nat) (acc : Nat × Nat × DB) (eid : Nat) (t : AlertType),
      Alert.check_duplicate acc.2.2 eid t = true →
      Alert.check_duplicate (complianceLoop today now oracle i acc l).2.2 eid t = true := by
  intro l
  induction l with
  | nil => intro i acc eid t h; exact h
  | cons e rest ih =>
    intro i acc eid t h
    simp only [complianceLoop]
    apply ih
    obtain ⟨s, hs⟩ := complianceStep_alerts_append today now (oracle i) acc e
    exact check_duplicate_of_alerts_append acc.2.2 _ s eid t hs h

theorem create_alert_commit_true (db : DB) (now : PyDateTime) (eid : Option Nat)
    (t : AlertType) (sev : AlertSeverity) (msg : String) :
    ((pyTruthy eid && Alert.check_duplicate db (eid.getD 0) t) = true ∧
      (AlertService.create_alert db now true eid t sev msg).2 = db) ∨
    (AlertService.create_alert db now true eid t sev msg).2 = insertedDB db now eid t sev msg := by
  unfold AlertService.create_alert
  by_cases h : (pyTruthy eid && Alert.check_duplicate db (eid.getD 0) t) = true
  · rw [if_pos h]
    exact Or.inl ⟨h, rfl⟩
  · rw [if_neg h]
    exact Or.inr rfl

theorem create_alert_dup_after (db : DB) (now : PyDateTime) (eid : Nat)
    (t : AlertType) (sev : AlertSeverity) (msg : String) :
    Alert.check_duplicate (AlertService.create_alert db now true (some eid) t sev msg).2 eid t = true := by
  rcases create_alert_commit_true db now (some eid) t sev msg with ⟨h, h2⟩ | h2
  · rw [h2]
    exact ((Bool.and_eq_true _ _).mp h).2
  · rw [h2]
    exact check_duplicate_insertedDB ..

theorem create_maintenance_alert_dup_after (db : DB) (now : PyDateTime) (eid : Nat)
    (t : AlertType) (dov dun : Option Int)
    (hx : ∃ b, db.equipment.find? (fun y => decide (y.id = eid)) = some b)
    (ht : isMaintenanceType t = true) :
    Alert.check_duplicate (AlertService.create_maintenance_alert db now true eid t dov dun).2 eid t = true := by
  obtain ⟨b, hb⟩ := hx
  unfold AlertService.create_maintenance_alert
  rw [hb]
  cases t with
  | OVERDUE_MAINTENANCE =>
    dsimp only
    exact create_alert_dup_after ..
  | UPCOMING_MAINTENANCE =>
    dsimp only
    exact create_alert_dup_after ..
  | EQUIPMENT_FAILURE => simp [isMaintenanceType] at ht

theorem create_maintenance_alert_suppressed (db : DB) (now : PyDateTime) (ok : Bool)
    (eid : Nat) (t : AlertType) (dov dun : Option Int)
    (h0 : eid ≠ 0) (hd : Alert.check_duplicate db eid t = true) :
    AlertService.create_maintenance_alert db now ok eid t dov dun = (false, db) := by
  unfold AlertService.create_maintenance_alert
  cases hf : db.equipment.find? (fun e => decide (e.id = eid)) with
  | none => rfl
  | some x =>
    cases t with
    | OVERDUE_MAINTENANCE =>
      dsimp only
      rw [create_alert_suppressed db now ok eid _ _ _ h0 hd]
      rfl
    | UPCOMING_MAINTENANCE =>
      dsimp only
      rw [create_alert_suppressed db now ok eid _ _ _ h0 hd]
      rfl
    | EQUIPMENT_FAILURE => rfl

theorem complianceStep_covers (today : PyDate) (now : PyDateTime)
    (acc : Nat × Nat × DB) (e : Equipment)
    (hmem : ∃ x ∈ acc.2.2.equipment, x.id = e.id) :
    (e.next_maintenance_date < today →
      Alert.check_duplicate (complianceStep today now true acc e).2.2
        e.id AlertType.OVERDUE_MAINTENANCE = true) ∧
    (today ≤ e.next_maintenance_date ∧ e.next_maintenance_date ≤ today + 7 →
      Alert.check_duplicate (complianceStep today now true acc e).2.2
        e.id AlertType.UPCOMING_MAINTENANCE = true) := by
  have hfind : ∃ b, acc.2.2.equipment.find? (fun y => decide (y.id = e.id)) = some b := by
    obtain ⟨x, hxmem, hxid⟩ := hmem
    cases hf : acc.2.2.equipment.find? (fun y => decide (y.id = e.id)) with
    | some b => exact ⟨b, rfl⟩
    | none =>
      exfalso
      have := List.find?_eq_none.mp hf x hxmem
      simp [hxid] at this
  constructor
  · intro hov
    unfold complianceStep
    dsimp only
    rw [if_pos hov]
    split
    · exact create_maintenance_alert_dup_after acc.2.2 now e.id _ _ _ hfind rfl
    · exact create_maintenance_alert_dup_after acc.2.2 now e.id _ _ _ hfind rfl
  · intro hwin
    unfold complianceStep
    dsimp only
    rw [if_neg (not_lt.mpr hwin.1), if_pos hwin]
    split
    · exact create_maintenance_alert_dup_after acc.2.2 now e.id _ _ _ hfind rfl
    · exact create_maintenance_alert_dup_after acc.2.2 now e.id _ _ _ hfind rfl

theorem complianceLoop_covers (today : PyDate) (now : PyDateTime) :
    ∀ (l : List Equipment) (i : Nat) (acc : Nat × Nat × DB),
      (∀ e ∈ l, ∃ x ∈ acc.2.2.equipment, x.id = e.id) →
      ∀ e ∈ l,
        (e.next_maintenance_date < today →
          Alert.check_duplicate (complianceLoop today now (fun _ => true) i acc l).2.2
            e.id AlertType.OVERDUE_MAINTENANCE = true) ∧
        (today ≤ e.next_maintenance_date ∧ e.next_maintenance_date ≤ today + 7 →
          Alert.check_duplicate (complianceLoop today now (fun _ => true) i acc l).2.2
            e.id AlertType.UPCOMING_MAINTENANCE = true) := by
  intro l
  induction l with
  | nil =>
    intro i acc _ e he
    cases he
  | cons e0 rest ih =>
    intro i acc hmem e he
    simp only [complianceLoop]
    rcases List.mem_cons.mp he with heq | hrest
    · subst heq
      have hcov := complianceStep_covers today now acc e (hmem e (List.mem_cons_self ..))
      constructor
      · intro hov
        exact complianceLoop_dup_mono today now _ rest (i + 1) _ _ _ (hcov.1 hov)
      · intro hwin
        exact complianceLoop_dup_mono today now _ rest (i + 1) _ _ _ (hcov.2 hwin)
    · refine ih (i + 1) (complianceStep today now true acc e0) (fun e' he' => ?_) e hrest
      obtain ⟨x, hx, hxid⟩ := hmem e' (List.mem_cons_of_mem _ he')
      refine ⟨x, ?_, hxid⟩
      rw [complianceStep_equipment]
      exact hx

theorem complianceLoop_suppressed (today : PyDate) (now' : PyDateTime) (oracle : Nat → Bool) :
    ∀ (l : List Equipment) (i : Nat) (u o : Nat) (db : DB),
      (∀ e ∈ l, e.id ≠ 0 ∧
        (e.next_maintenance_date < today →
          Alert.check_duplicate db e.id AlertType.OVERDUE_MAINTENANCE = true) ∧
        (today ≤ e.next_maintenance_date ∧ e.next_maintenance_date ≤ today + 7 →
          Alert.check_duplicate db e.id AlertType.UPCOMING_MAINTENANCE = true)) →
      complianceLoop today now' oracle i (u, o, db) l = (u, o, db) := by
  intro l
  induction l with
  | nil => intro i u o db _; rfl
  | cons e0 rest ih =>
    intro i u o db h
    obtain ⟨h0, hov, hwin⟩ := h e0 (List.mem_cons_self ..)
    have hstep : complianceStep today now' (oracle i) (u, o, db) e0 = (u, o, db) := by
      unfold complianceStep
      dsimp only
      by_cases hb1 : e0.next_maintenance_date < today
      · rw [if_pos hb1,
          create_maintenance_alert_suppressed db now' (oracle i) e0.id _ _ _ h0 (hov hb1)]
        rfl
      · rw [if_neg hb1]
        by_cases hb2 : today ≤ e0.next_maintenance_date ∧ e0.next_maintenance_date ≤ today + 7
        · rw [if_pos hb2,
            create_maintenance_alert_suppressed db now' (oracle i) e0.id _ _ _ h0 (hwin hb2)]
          rfl
        · rw [if_neg hb2]
    simp only [complianceLoop]
    rw [hstep]
    exact ih (i + 1) u o db (fun e he => h e (List.mem_cons_of_mem _ he))

/-! ### Concrete fixtures used by witnesses and counterexamples -/

/-- Concrete equipment row (id 1) used by witnesses. -/
def eqFixture : Equipment :=
  ⟨1, "Ventilator Unit 1", "VENT-001", "Ventilator", none, none, 90, none, 0,
    EquipmentStatus.OK, 0, none⟩

/-- Concrete unresolved OVERDUE_MAINTENANCE alert for equipment 1. -/
def alertOverdueFixture : Alert :=
  ⟨1, some 1, AlertType.OVERDUE_MAINTENANCE, AlertSeverity.CRITICAL, "m", 0, false, none⟩

/-- Concrete store holding equipment 1 and its unresolved overdue alert. -/
def dbFixture : DB := ⟨[eqFixture], [alertOverdueFixture], [], 2, 1⟩

/-! ### Claim theorems -/

/-- C5: for every equipment, `calculate_next_maintenance` sets the next
maintenance date to last maintenance date + interval when a last date is set,
and to today's date + interval when it is unset. -/
theorem C5_calculate_next_maintenance (e : Equipment) (today : PyDate) :
    (Equipment.calculate_next_maintenance today e).next_maintenance_date =
      match e.last_maintenance_date with
      | some last => last + e.maintenance_interval
      | none => today + e.maintenance_interval := by
  unfold Equipment.calculate_next_maintenance
  cases e.last_maintenance_date with
  | some last => rfl
  | none => rfl

/-- C10: `create_alert` is a total function returning an optional alert: the
result is `none` both under dedup suppression and under commit failure (after
rollback), and in every `none` outcome the store is unchanged — so a `none`
result does not distinguish the two cases. -/
theorem C10_create_alert_none_flows (db : DB) (now : PyDateTime) (ok : Bool)
    (eid : Option Nat) (t : AlertType) (sev : AlertSeverity) (msg : String) :
    ((AlertService.create_alert db now ok eid t sev msg).1 = none →
      (AlertService.create_alert db now ok eid t sev msg).2 = db) ∧
    ((pyTruthy eid && Alert.check_duplicate db (eid.getD 0) t) = true →
      (AlertService.create_alert db now ok eid t sev msg).1 = none) ∧
    (ok = false → (AlertService.create_alert db now ok eid t sev msg).1 = none) := by
  unfold AlertService.create_alert
  by_cases h : (pyTruthy eid && Alert.check_duplicate db (eid.getD 0) t) = true
  · rw [if_pos h]
    exact ⟨fun _ => rfl, fun _ => rfl, fun _ => rfl⟩
  · rw [if_neg h]
    cases ok with
    | true =>
      exact ⟨fun hn => Option.noConfusion hn, fun hd => absurd hd h,
        fun hf => Bool.noConfusion hf⟩
    | false =>
      exact ⟨fun _ => rfl, fun _ => rfl, fun _ => rfl⟩

/-- Witness for C10 at a concrete input: a duplicate unresolved alert exists,
so `create_alert` returns `none` and the store is unchanged. -/
theorem C10_create_alert_none_flows_witness :
    (AlertService.create_alert dbFixture 5 true (some 1) AlertType.OVERDUE_MAINTENANCE
      AlertSeverity.CRITICAL "m2").1 = none ∧
    (AlertService.create_alert dbFixture 5 true (some 1) AlertType.OVERDUE_MAINTENANCE
      AlertSeverity.CRITICAL "m2").2 = dbFixture := by
  have h := C10_create_alert_none_flows dbFixture 5 true (some 1)
    AlertType.OVERDUE_MAINTENANCE AlertSeverity.CRITICAL "m2"
  have hn := h.2.1 (by decide)
  exact ⟨hn, h.1 hn⟩

/-- C3: the compliance scan is idempotent — after one scan whose commits all
succeed, a second scan with the same `today` and no intervening maintenance or
resolution creates zero upcoming and zero overdue alerts and leaves the store
untouched, for any commit outcomes on the second scan.  The hypothesis that
equipment ids are nonzero matches the store, whose autoincrement primary keys
start at 1. -/
theorem C3_compliance_scan_idempotent (db : DB) (today : PyDate) (now now' : PyDateTime)
    (oracle' : Nat → Bool) (hWF : ∀ e ∈ db.equipment, e.id ≠ 0) :
    (MaintenanceService.check_maintenance_compliance
        (MaintenanceService.check_maintenance_compliance db today now (fun _ => true)).2
        today now' oracle').1.upcoming_alerts_created = 0 ∧
    (MaintenanceService.check_maintenance_compliance
        (MaintenanceService.check_maintenance_compliance db today now (fun _ => true)).2
        today now' oracle').1.overdue_alerts_created = 0 ∧
    (MaintenanceService.check_maintenance_compliance
        (MaintenanceService.check_maintenance_compliance db today now (fun _ => true)).2
        today now' oracle').2 =
      (MaintenanceService.check_maintenance_compliance db today now (fun _ => true)).2 := by
  have hequip : (complianceLoop today now (fun _ => true) 0 (0, 0, db) db.equipment).2.2.equipment
      = db.equipment :=
    complianceLoop_equipment today now (fun _ => true) db.equipment 0 (0, 0, db)
  have hcov := complianceLoop_covers today now db.equipment 0 (0, 0, db)
    (fun e he => ⟨e, he, rfl⟩)
  have hsup : complianceLoop today now' oracle' 0
      (0, 0, (complianceLoop today now (fun _ => true) 0 (0, 0, db) db.equipment).2.2)
      ((complianceLoop today now (fun _ => true) 0 (0, 0, db) db.equipment).2.2).equipment =
      (0, 0, (complianceLoop today now (fun _ => true) 0 (0, 0, db) db.equipment).2.2) := by
    rw [hequip]
    apply complianceLoop_suppressed
    intro e he
    exact ⟨hWF e he, (hcov e he).1, (hcov e he).2⟩
  unfold MaintenanceService.check_maintenance_compliance
  dsimp only
  rw [hsup]
  exact ⟨rfl, rfl, rfl⟩

/-- Witness for C3 at a concrete input: equipment 1 is overdue at today = 10,
the first scan creates the overdue alert, the second creates nothing. -/
theorem C3_compliance_scan_idempotent_witness :
    (MaintenanceService.check_maintenance_compliance
        (MaintenanceService.check_maintenance_compliance dbFixture 10 0 (fun _ => true)).2
        10 1 (fun _ => true)).1.upcoming_alerts_created = 0 ∧
    (MaintenanceService.check_maintenance_compliance
        (MaintenanceService.check_maintenance_compliance dbFixture 10 0 (fun _ => true)).2
        10 1 (fun _ => true)).1.overdue_alerts_created = 0 ∧
    (MaintenanceService.check_maintenance_compliance
        (MaintenanceService.check_maintenance_compliance dbFixture 10 0 (fun _ => true)).2
        10 1 (fun _ => true)).2 =
      (MaintenanceService.check_maintenance_compliance dbFixture 10 0 (fun _ => true)).2 :=
  C3_compliance_scan_idempotent dbFixture 10 0 1 (fun _ => true) (by decide)

theorem unresolvedCount_congr (db db' : DB) (h : db'.alerts = db.alerts)
    (eid : Nat) (t : AlertType) :
    unresolvedCount db' eid t = unresolvedCount db eid t := by
  unfold unresolvedCount
  rw [h]

theorem unresolvedCount_eq_zero_of_not_dup (db : DB) (eid : Nat) (t : AlertType)
    (h : Alert.check_duplicate db eid t = false) :
    unresolvedCount db eid t = 0 := by
  unfold Alert.check_duplicate at h
  unfold unresolvedCount
  rw [List.length_eq_zero, List.filter_eq_nil_iff]
  intro a ha hp
  rw [List.any_eq_false] at h
  exact h a ha hp

theorem unresolvedCount_insertedDB (db : DB) (now : PyDateTime) (eid? : Option Nat)
    (t : AlertType) (sev : AlertSeverity) (msg : String) (eid : Nat) (ht : AlertType) :
    unresolvedCount (insertedDB db now eid? t sev msg) eid ht =
      unresolvedCount db eid ht +
        (if dupRow eid ht (insertedAlert db now eid? t sev msg) = true then 1 else 0) := by
  unfold unresolvedCount insertedDB
  dsimp only
  rw [List.filter_append, List.length_append]
  congr 1
  cases h : dupRow eid ht (insertedAlert db now eid? t sev msg) with
  | true => simp [List.filter, h]
  | false => simp [List.filter, h]

theorem unresolvedCount_create_alert (db : DB) (now : PyDateTime) (ok : Bool)
    (eid? : Option Nat) (t : AlertType) (sev : AlertSeverity) (msg : String)
    (eid : Nat) (ht : AlertType) (h0 : eid ≠ 0) (h : unresolvedCount db eid ht ≤ 1) :
    unresolvedCount (AlertService.create_alert db now ok eid? t sev msg).2 eid ht ≤ 1 := by
  unfold AlertService.create_alert
  by_cases hc : (pyTruthy eid? && Alert.check_duplicate db (eid?.getD 0) t) = true
  · rw [if_pos hc]
    exact h
  · rw [if_neg hc]
    cases ok with
    | false => exact h
    | true =>
      show unresolvedCount (insertedDB db now eid? t sev msg) eid ht ≤ 1
      rw [unresolvedCount_insertedDB]
      by_cases hr : dupRow eid ht (insertedAlert db now eid? t sev msg) = true
      · rw [if_pos hr]
        obtain ⟨he, htt, -⟩ := (dupRow_iff eid ht _).mp hr
        have he' : eid? = some eid := he
        have ht' : t = ht := htt
        subst he' ht'
        have hdup : Alert.check_duplicate db eid t = false := by
          cases hcd : Alert.check_duplicate db eid t with
          | false => rfl
          | true =>
            exfalso
            apply hc
            rw [Bool.and_eq_true]
            exact ⟨bne_iff_ne.mpr h0, hcd⟩
        rw [unresolvedCount_eq_zero_of_not_dup db eid t hdup]
      · rw [if_neg hr]
        simpa using h

theorem unresolvedCount_map_le (db db' : DB) (g : Alert → Alert) (now : PyDateTime)
    (hg : ∀ a, g a = a ∨ g a = Alert.resolve_at now a)
    (h' : db'.alerts = db.alerts.map g) (eid : Nat) (ht : AlertType)
    (h : unresolvedCount db eid ht ≤ 1) :
    unresolvedCount db' eid ht ≤ 1 := by
  unfold unresolvedCount at h ⊢
  rw [h']
  refine le_trans (length_filter_map_le g (dupRow eid ht) ?_ db.alerts) h
  intro a ha
  rcases hg a with hga | hga
  · rw [hga] at ha
    exact ha
  · rw [hga] at ha
    have := (dupRow_iff eid ht _).mp ha
    simp [Alert.resolve_at] at this

theorem unresolvedCount_create_maintenance_alert (db : DB) (now : PyDateTime) (ok : Bool)
    (e : Nat) (ty : AlertType) (dov dun : Option Int)
    (eid : Nat) (t : AlertType) (h0 : eid ≠ 0) (h : unresolvedCount db eid t ≤ 1) :
    unresolvedCount (AlertService.create_maintenance_alert db now ok e ty dov dun).2 eid t ≤ 1 := by
  unfold AlertService.create_maintenance_alert
  cases hf : db.equipment.find? (fun x => decide (x.id = e)) with
  | none => exact h
  | some x =>
    cases ty with
    | OVERDUE_MAINTENANCE =>
      dsimp only
      exact unresolvedCount_create_alert db now ok (some e) _ _ _ eid t h0 h
    | UPCOMING_MAINTENANCE =>
      dsimp only
      exact unresolvedCount_create_alert db now ok (some e) _ _ _ eid t h0 h
    | EQUIPMENT_FAILURE => exact h

theorem unresolvedCount_complianceStep (today : PyDate) (now : PyDateTime) (ok : Bool)
    (acc : Nat × Nat × DB) (e : Equipment)
    (eid : Nat) (t : AlertType) (h0 : eid ≠ 0) (h : unresolvedCount acc.2.2 eid t ≤ 1) :
    unresolvedCount (complianceStep today now ok acc e).2.2 eid t ≤ 1 := by
  unfold complianceStep
  dsimp only
  split
  · split
    · exact unresolvedCount_create_maintenance_alert acc.2.2 now ok e.id _ _ _ eid t h0 h
    · exact unresolvedCount_create_maintenance_alert acc.2.2 now ok e.id _ _ _ eid t h0 h
  · split
    · split
      · exact unresolvedCount_create_maintenance_alert acc.2.2 now ok e.id _ _ _ eid t h0 h
      · exact unresolvedCount_create_maintenance_alert acc.2.2 now ok e.id _ _ _ eid t h0 h
    · exact h

theorem unresolvedCount_complianceLoop (today : PyDate) (now : PyDateTime) (oracle : Nat → Bool) :
    ∀ (l : List Equipment) (i : Nat) (acc : Nat × Nat × DB) (eid : Nat) (t : AlertType),
      eid ≠ 0 → unresolvedCount acc.2.2 eid t ≤ 1 →
      unresolvedCount (complianceLoop today now oracle i acc l).2.2 eid t ≤ 1 := by
  intro l
  induction l with
  | nil => intro i acc eid t _ h; exact h
  | cons e rest ih =>
    intro i acc eid t h0 h
    simp only [complianceLoop]
    exact ih (i + 1) _ eid t h0 (unresolvedCount_complianceStep today now (oracle i) acc e eid t h0 h)

theorem log_maintenance_alerts_shape (db : DB) (now : PyDateTime) (ok1 ok2 : Bool)
    (eid : Nat) (pb : String) (notes : Option String) (pat : Option PyDateTime) :
    (MaintenanceService.log_maintenance db now ok1 ok2 eid pb notes pat).2.alerts = db.alerts ∨
    (MaintenanceService.log_maintenance db now ok1 ok2 eid pb notes pat).2.alerts =
      db.alerts.map (fun a => if maintenanceAlertRow eid a then Alert.resolve_at now a else a) := by
  unfold MaintenanceService.log_maintenance
  cases hf : db.equipment.find? (fun e => decide (e.id = eid)) with
  | none => exact Or.inl rfl
  | some x =>
    dsimp only
    by_cases hpb : pyStrip pb = ""
    · rw [if_pos hpb]
      exact Or.inl rfl
    · rw [if_neg hpb]
      by_cases hfut : now < pat.getD now
      · rw [if_pos hfut]
        exact Or.inl rfl
      · rw [if_neg hfut]
        cases ok1 with
        | false => exact Or.inl rfl
        | true =>
          rcases resolve_maintenance_alerts_shape
              (logCommitDB db eid (logEntry db now eid pb notes (pat.getD now))
                (updatedEquipment now (pat.getD now) x))
              now ok2 eid with hs | hs
          · refine Or.inl ?_
            show (AlertService.resolve_maintenance_alerts (logCommitDB db eid
              (logEntry db now eid pb notes (pat.getD now))
              (updatedEquipment now (pat.getD now) x)) now ok2 eid).2.alerts = db.alerts
            rw [hs]
            rfl
          · refine Or.inr ?_
            show (AlertService.resolve_maintenance_alerts (logCommitDB db eid
              (logEntry db now eid pb notes (pat.getD now))
              (updatedEquipment now (pat.getD now) x)) now ok2 eid).2.alerts = _
            rw [hs]
            rfl

theorem unresolvedCount_resolve_alert (db : DB) (now : PyDateTime) (ok : Bool) (aid : Nat)
    (eid : Nat) (t : AlertType) (h : unresolvedCount db eid t ≤ 1) :
    unresolvedCount (AlertService.resolve_alert db now ok aid).2 eid t ≤ 1 := by
  rcases resolve_alert_shape db now ok aid with hs | ⟨b, -, -, -, hs⟩
  · rw [hs]
    exact h
  · refine unresolvedCount_map_le db (AlertService.resolve_alert db now ok aid).2
      (fun a => if a.id = aid then Alert.resolve_at now a else a) now (fun a => ?_)
      (by rw [hs]) eid t h
    dsimp only
    by_cases ha : a.id = aid
    · rw [if_pos ha]
      exact Or.inr rfl
    · rw [if_neg ha]
      exact Or.inl rfl

theorem unresolvedCount_resolve_maintenance_alerts (db : DB) (now : PyDateTime) (ok : Bool)
    (e : Nat) (eid : Nat) (t : AlertType) (h : unresolvedCount db eid t ≤ 1) :
    unresolvedCount (AlertService.resolve_maintenance_alerts db now ok e).2 eid t ≤ 1 := by
  rcases resolve_maintenance_alerts_shape db now ok e with hs | hs
  · rw [hs]
    exact h
  · refine unresolvedCount_map_le db (AlertService.resolve_maintenance_alerts db now ok e).2
      (fun a => if maintenanceAlertRow e a then Alert.resolve_at now a else a) now (fun a => ?_)
      (by rw [hs]) eid t h
    dsimp only
    by_cases ha : maintenanceAlertRow e a = true
    · rw [if_pos ha]
      exact Or.inr rfl
    · rw [if_neg ha]
      exact Or.inl rfl

theorem unresolvedCount_log_maintenance (db : DB) (now : PyDateTime) (ok1 ok2 : Bool)
    (e : Nat) (pb : String) (notes : Option String) (pat : Option PyDateTime)
    (eid : Nat) (t : AlertType) (h : unresolvedCount db eid t ≤ 1) :
    unresolvedCount (MaintenanceService.log_maintenance db now ok1 ok2 e pb notes pat).2 eid t ≤ 1 := by
  rcases log_maintenance_alerts_shape db now ok1 ok2 e pb notes pat with hs | hs
  · rw [unresolvedCount_congr db (MaintenanceService.log_maintenance db now ok1 ok2 e pb notes pat).2 hs eid t]
    exact h
  · refine unresolvedCount_map_le db (MaintenanceService.log_maintenance db now ok1 ok2 e pb notes pat).2
      (fun a => if maintenanceAlertRow e a then Alert.resolve_at now a else a) now (fun a => ?_)
      hs eid t h
    dsimp only
    by_cases ha : maintenanceAlertRow e a = true
    · rw [if_pos ha]
      exact Or.inr rfl
    · rw [if_neg ha]
      exact Or.inl rfl

theorem dedupInv_applyOp (db : DB) (op : Op)
    (h : ∀ eid t, eid ≠ 0 → unresolvedCount db eid t ≤ 1) :
    ∀ eid t, eid ≠ 0 → unresolvedCount (applyOp db op) eid t ≤ 1 := by
  intro eid t h0
  cases op with
  | createAlert e? ty sev msg now ok =>
    exact unresolvedCount_create_alert db now ok e? ty sev msg eid t h0 (h eid t h0)
  | createFailureAlert e now ok =>
    show unresolvedCount (AlertService.create_equipment_failure_alert db now ok e).2 eid t ≤ 1
    unfold AlertService.create_equipment_failure_alert
    cases hf : db.equipment.find? (fun x => decide (x.id = e)) with
    | none => exact h eid t h0
    | some x =>
      exact unresolvedCount_create_alert db now ok (some e) _ _ _ eid t h0 (h eid t h0)
  | createMaintAlert e ty dov dun now ok =>
    exact unresolvedCount_create_maintenance_alert db now ok e ty dov dun eid t h0 (h eid t h0)
  | resolveOne aid now ok =>
    exact unresolvedCount_resolve_alert db now ok aid eid t (h eid t h0)
  | resolveMaint e now ok =>
    exact unresolvedCount_resolve_maintenance_alerts db now ok e eid t (h eid t h0)
  | checkCompliance today now oracle =>
    show unresolvedCount (MaintenanceService.check_maintenance_compliance db today now oracle).2 eid t ≤ 1
    unfold MaintenanceService.check_maintenance_compliance
    exact unresolvedCount_complianceLoop today now oracle db.equipment 0 (0, 0, db) eid t h0 (h eid t h0)
  | logMaintenance e pb notes pat now ok1 ok2 =>
    exact unresolvedCount_log_maintenance db now ok1 ok2 e pb notes pat eid t (h eid t h0)

theorem dedupInv_runOps (ops : List Op) :
    ∀ db : DB, (∀ eid t, eid ≠ 0 → unresolvedCount db eid t ≤ 1) →
      ∀ eid t, eid ≠ 0 → unresolvedCount (runOps db ops) eid t ≤ 1 := by
  induction ops with
  | nil => intro db h; exact h
  | cons op rest ih =>
    intro db h
    exact ih (applyOp db op) (dedupInv_applyOp db op h)

/-- C1 counterexample: the dedup check is the Python truthiness test
`if equipment_id and ...`, which is false for equipment id 0, so two
`create_alert` calls with equipment id 0 both insert, and the state reached
from the empty store through two core operations carries two unresolved
alerts with the same (equipment id, type) pair. -/
theorem C1_dedup_invariant_counterexample :
    unresolvedCount
      (runOps emptyDB
        [Op.createAlert (some 0) AlertType.EQUIPMENT_FAILURE AlertSeverity.CRITICAL "f" 0 true,
         Op.createAlert (some 0) AlertType.EQUIPMENT_FAILURE AlertSeverity.CRITICAL "f" 0 true])
      0 AlertType.EQUIPMENT_FAILURE = 2 := by
  decide

/-- C1 (amended): for every nonzero equipment id E and alert type T, every
state reachable from the empty store through the core operations carries at
most one unresolved (E, T) alert; and `create_alert` called with a present
nonzero equipment id returns `none` and inserts nothing when such an
unresolved alert already exists.  (For equipment id 0 — which the store's
autoincrement primary keys never assign — the Python truthiness test skips
the dedup check, see the counterexample.) -/
theorem C1_dedup_invariant_amended (ops : List Op) (eid : Nat) (t : AlertType)
    (h0 : eid ≠ 0) :
    unresolvedCount (runOps emptyDB ops) eid t ≤ 1 ∧
    (∀ (db : DB) (now : PyDateTime) (ok : Bool) (sev : AlertSeverity) (msg : String),
      Alert.check_duplicate db eid t = true →
      AlertService.create_alert db now ok (some eid) t sev msg = (none, db)) := by
  constructor
  · refine dedupInv_runOps ops emptyDB (fun eid' t' _ => ?_) eid t h0
    show (List.filter (dupRow eid' t') emptyDB.alerts).length ≤ 1
    exact Nat.zero_le 1
  · intro db now ok sev msg hd
    exact create_alert_suppressed db now ok eid t sev msg h0 hd

/-- Witness for C1 (amended) at equipment id 1: two creation attempts leave at
most one unresolved alert, and a duplicate-suppressed `create_alert` returns
`none` without touching the store. -/
theorem C1_dedup_invariant_amended_witness :
    unresolvedCount
      (runOps emptyDB
        [Op.createAlert (some 1) AlertType.EQUIPMENT_FAILURE AlertSeverity.CRITICAL "f" 0 true,
         Op.createAlert (some 1) AlertType.EQUIPMENT_FAILURE AlertSeverity.CRITICAL "f" 0 true])
      1 AlertType.EQUIPMENT_FAILURE ≤ 1 ∧
    (∀ (db : DB) (now : PyDateTime) (ok : Bool) (sev : AlertSeverity) (msg : String),
      Alert.check_duplicate db 1 AlertType.EQUIPMENT_FAILURE = true →
      AlertService.create_alert db now ok (some 1) AlertType.EQUIPMENT_FAILURE sev msg = (none, db)) :=
  C1_dedup_invariant_amended
    [Op.createAlert (some 1) AlertType.EQUIPMENT_FAILURE AlertSeverity.CRITICAL "f" 0 true,
     Op.createAlert (some 1) AlertType.EQUIPMENT_FAILURE AlertSeverity.CRITICAL "f" 0 true]
    1 AlertType.EQUIPMENT_FAILURE (by decide)

theorem find?_preserved_map (l : List Alert) (aid : Nat) (a : Alert) (g : Alert → Alert)
    (hg_id : ∀ x, (g x).id = x.id)
    (hf : l.find? (fun x => decide (x.id = aid)) = some a)
    (ha : g a = a) :
    (l.map g).find? (fun x => decide (x.id = aid)) = some a := by
  rw [find?_map_pred g (fun x => decide (x.id = aid)) (fun x => by dsimp only; rw [hg_id]) l,
    hf, Option.map_some', ha]

theorem create_equipment_failure_alert_alerts_append (db : DB) (now : PyDateTime)
    (ok : Bool) (e : Nat) :
    ∃ s, (AlertService.create_equipment_failure_alert db now ok e).2.alerts = db.alerts ++ s := by
  unfold AlertService.create_equipment_failure_alert
  cases hf : db.equipment.find? (fun x => decide (x.id = e)) with
  | none => exact ⟨[], (List.append_nil _).symm⟩
  | some x => exact create_alert_alerts_append ..

theorem resolved_find_preserved_applyOp (db : DB) (op : Op) (aid : Nat) (a : Alert)
    (hf : db.alerts.find? (fun x => decide (x.id = aid)) = some a)
    (hres : a.resolved = true) :
    (applyOp db op).alerts.find? (fun x => decide (x.id = aid)) = some a := by
  have haid : a.id = aid := by
    have := List.find?_some hf
    simpa using this
  cases op with
  | createAlert e? ty sev msg now ok =>
    obtain ⟨s, hs⟩ := create_alert_alerts_append db now ok e? ty sev msg
    show (AlertService.create_alert db now ok e? ty sev msg).2.alerts.find?
      (fun x => decide (x.id = aid)) = some a
    rw [hs]
    exact find?_append_left hf
  | createFailureAlert e now ok =>
    obtain ⟨s, hs⟩ := create_equipment_failure_alert_alerts_append db now ok e
    show (AlertService.create_equipment_failure_alert db now ok e).2.alerts.find?
      (fun x => decide (x.id = aid)) = some a
    rw [hs]
    exact find?_append_left hf
  | createMaintAlert e ty dov dun now ok =>
    obtain ⟨s, hs⟩ := create_maintenance_alert_alerts_append db now ok e ty dov dun
    show (AlertService.create_maintenance_alert db now ok e ty dov dun).2.alerts.find?
      (fun x => decide (x.id = aid)) = some a
    rw [hs]
    exact find?_append_left hf
  | resolveOne aid' now ok =>
    rcases resolve_alert_shape db now ok aid' with hs | ⟨b, hb, hbres, -, hs⟩
    · show (AlertService.resolve_alert db now ok aid').2.alerts.find?
        (fun x => decide (x.id = aid)) = some a
      rw [hs]
      exact hf
    · show (AlertService.resolve_alert db now ok aid').2.alerts.find?
        (fun x => decide (x.id = aid)) = some a
      rw [hs]
      refine find?_preserved_map db.alerts aid a _ (fun x => ?_) hf ?_
      · by_cases hx : x.id = aid'
        · rw [if_pos hx]
          rfl
        · rw [if_neg hx]
      · by_cases hx : a.id = aid'
        · exfalso
          rw [haid] at hx
          subst hx
          rw [hf] at hb
          cases hb
          rw [hres] at hbres
          exact Bool.noConfusion hbres
        · show (if a.id = aid' then Alert.resolve_at now a else a) = a
          rw [if_neg hx]
  | resolveMaint e now ok =>
    rcases resolve_maintenance_alerts_shape db now ok e with hs | hs
    · show (AlertService.resolve_maintenance_alerts db now ok e).2.alerts.find?
        (fun x => decide (x.id = aid)) = some a
      rw [hs]
      exact hf
    · show (AlertService.resolve_maintenance_alerts db now ok e).2.alerts.find?
        (fun x => decide (x.id = aid)) = some a
      rw [hs]
      refine find?_preserved_map db.alerts aid a _ (fun x => ?_) hf ?_
      · by_cases hx : maintenanceAlertRow e x = true
        · rw [if_pos hx]
          rfl
        · rw [if_neg hx]
      · have hrow : maintenanceAlertRow e a = false := by
          unfold maintenanceAlertRow
          rw [hres]
          simp
        show (if maintenanceAlertRow e a then Alert.resolve_at now a else a) = a
        rw [hrow]
        rfl
  | checkCompliance today now oracle =>
    obtain ⟨s, hs⟩ := complianceLoop_alerts_append today now oracle db.equipment 0 (0, 0, db)
    show (MaintenanceService.check_maintenance_compliance db today now oracle).2.alerts.find?
      (fun x => decide (x.id = aid)) = some a
    unfold MaintenanceService.check_maintenance_compliance
    dsimp only
    rw [hs]
    exact find?_append_left hf
  | logMaintenance e pb notes pat now ok1 ok2 =>
    rcases log_maintenance_alerts_shape db now ok1 ok2 e pb notes pat with hs | hs
    · show (MaintenanceService.log_maintenance db now ok1 ok2 e pb notes pat).2.alerts.find?
        (fun x => decide (x.id = aid)) = some a
      rw [hs]
      exact hf
    · show (MaintenanceService.log_maintenance db now ok1 ok2 e pb notes pat).2.alerts.find?
        (fun x => decide (x.id = aid)) = some a
      rw [hs]
      refine find?_preserved_map db.alerts aid a _ (fun x => ?_) hf ?_
      · by_cases hx : maintenanceAlertRow e x = true
        · rw [if_pos hx]
          rfl
        · rw [if_neg hx]
      · have hrow : maintenanceAlertRow e a = false := by
          unfold maintenanceAlertRow
          rw [hres]
          simp
        show (if maintenanceAlertRow e a then Alert.resolve_at now a else a) = a
        rw [hrow]
        rfl

theorem resolved_find_preserved_runOps (ops : List Op) :
    ∀ (db : DB) (aid : Nat) (a : Alert),
      db.alerts.find? (fun x => decide (x.id = aid)) = some a → a.resolved = true →
      (runOps db ops).alerts.find? (fun x => decide (x.id = aid)) = some a := by
  induction ops with
  | nil => intro db aid a hf _; exact hf
  | cons op rest ih =>
    intro db aid a hf hres
    exact ih (applyOp db op) aid a (resolved_find_preserved_applyOp db op aid a hf hres) hres

/-- Concrete resolved alert used by witnesses. -/
def alertResolvedFixture : Alert :=
  ⟨2, some 1, AlertType.EQUIPMENT_FAILURE, AlertSeverity.CRITICAL, "r", 0, true, some 3⟩

/-- Concrete store with one unresolved and one resolved alert. -/
def dbFixture2 : DB := ⟨[eqFixture], [alertOverdueFixture, alertResolvedFixture], [], 3, 1⟩

/-- C7: `resolve_alert` fails with "Alert not found" when no alert with the id
exists; fails with "Alert already resolved" — leaving the store, hence the
resolved timestamp, untouched — when the alert is already resolved; otherwise
(with the commit succeeding) returns success and marks the alert resolved at
`now`; and a resolved alert record survives every core operation unchanged, so
the false-to-true transition is never reversed. -/
theorem C7_resolve_alert_outcomes :
    (∀ (db : DB) (now : PyDateTime) (ok : Bool) (aid : Nat),
      db.alerts.find? (fun x => decide (x.id = aid)) = none →
      AlertService.resolve_alert db now ok aid = ((false, some "Alert not found"), db)) ∧
    (∀ (db : DB) (now : PyDateTime) (ok : Bool) (aid : Nat) (a : Alert),
      db.alerts.find? (fun x => decide (x.id = aid)) = some a → a.resolved = true →
      AlertService.resolve_alert db now ok aid = ((false, some "Alert already resolved"), db)) ∧
    (∀ (db : DB) (now : PyDateTime) (aid : Nat) (a : Alert),
      db.alerts.find? (fun x => decide (x.id = aid)) = some a → a.resolved = false →
      (AlertService.resolve_alert db now true aid).1 = (true, none) ∧
      (AlertService.resolve_alert db now true aid).2.alerts.find?
        (fun x => decide (x.id = aid)) = some (Alert.resolve_at now a)) ∧
    (∀ (ops : List Op) (db : DB) (aid : Nat) (a : Alert),
      db.alerts.find? (fun x => decide (x.id = aid)) = some a → a.resolved = true →
      (runOps db ops).alerts.find? (fun x => decide (x.id = aid)) = some a) := by
  refine ⟨?_, ?_, ?_, resolved_find_preserved_runOps⟩
  · intro db now ok aid hf
    unfold AlertService.resolve_alert
    rw [hf]
  · intro db now ok aid a hf hres
    unfold AlertService.resolve_alert
    rw [hf]
    dsimp only
    rw [hres]
    rfl
  · intro db now aid a hf hres
    have haid : a.id = aid := by
      have := List.find?_some hf
      simpa using this
    have hr : AlertService.resolve_alert db now true aid =
        ((true, none), { db with alerts := db.alerts.map (fun x =>
          if x.id = aid then Alert.resolve_at now x else x) }) := by
      unfold AlertService.resolve_alert
      rw [hf]
      dsimp only
      rw [hres]
      rfl
    rw [hr]
    refine ⟨rfl, ?_⟩
    show (db.alerts.map (fun x => if x.id = aid then Alert.resolve_at now x else x)).find?
      (fun x => decide (x.id = aid)) = some (Alert.resolve_at now a)
    rw [find?_map_pred (fun x => if x.id = aid then Alert.resolve_at now x else x)
      (fun x => decide (x.id = aid)) (fun x => ?_) db.alerts, hf, Option.map_some']
    · rw [if_pos haid]
    · dsimp only
      by_cases hx : x.id = aid
      · rw [if_pos hx]
        rfl
      · rw [if_neg hx]

/-- Witness for C7 at concrete inputs: a missing id fails with not-found, a
resolved alert fails with already-resolved leaving the store unchanged, an
unresolved alert is resolved at `now`, and a resolved alert survives an
operation unchanged. -/
theorem C7_resolve_alert_outcomes_witness :
    AlertService.resolve_alert dbFixture2 7 true 99 = ((false, some "Alert not found"), dbFixture2) ∧
    AlertService.resolve_alert dbFixture2 7 true 2 = ((false, some "Alert already resolved"), dbFixture2) ∧
    (AlertService.resolve_alert dbFixture2 7 true 1).1 = (true, none) ∧
    (AlertService.resolve_alert dbFixture2 7 true 1).2.alerts.find?
      (fun x => decide (x.id = 1)) = some (Alert.resolve_at 7 alertOverdueFixture) ∧
    (runOps dbFixture2 [Op.resolveOne 2 8 true]).alerts.find?
      (fun x => decide (x.id = 2)) = some alertResolvedFixture := by
  have h := C7_resolve_alert_outcomes
  exact ⟨h.1 dbFixture2 7 true 99 (by decide),
    h.2.1 dbFixture2 7 true 2 alertResolvedFixture (by decide) (by decide),
    (h.2.2.1 dbFixture2 7 1 alertOverdueFixture (by decide) (by decide)).1,
    (h.2.2.1 dbFixture2 7 1 alertOverdueFixture (by decide) (by decide)).2,
    h.2.2.2 [Op.resolveOne 2 8 true] dbFixture2 2 alertResolvedFixture (by decide) (by decide)⟩

theorem resolve_maintenance_alerts_commit_true (db : DB) (now : PyDateTime) (eid : Nat) :
    AlertService.resolve_maintenance_alerts db now true eid =
      ((db.alerts.filter (maintenanceAlertRow eid)).length,
        { db with alerts := db.alerts.map (fun a =>
          if maintenanceAlertRow eid a then Alert.resolve_at now a else a) }) := by
  unfold AlertService.resolve_maintenance_alerts
  dsimp only
  by_cases h : (db.alerts.filter (maintenanceAlertRow eid)).length > 0
  · rw [if_pos h]
    rfl
  · rw [if_neg h]
    have h0 : (db.alerts.filter (maintenanceAlertRow eid)).length = 0 :=
      Nat.eq_zero_of_not_pos h
    have hnil : db.alerts.filter (maintenanceAlertRow eid) = [] :=
      List.length_eq_zero.mp h0
    have hmap : db.alerts.map (fun a =>
        if maintenanceAlertRow eid a then Alert.resolve_at now a else a) = db.alerts := by
      have hmem := List.filter_eq_nil_iff.mp hnil
      calc db.alerts.map (fun a => if maintenanceAlertRow eid a then Alert.resolve_at now a else a)
          = db.alerts.map id := by
            apply List.map_congr_left
            intro a ha
            have : ¬ maintenanceAlertRow eid a = true := hmem a ha
            rw [if_neg this]
            rfl
        _ = db.alerts := List.map_id db.alerts
    rw [hmap]

/-- C8: with the commit succeeding, `resolve_maintenance_alerts(E)` resolves
exactly the currently-unresolved UPCOMING/OVERDUE maintenance alerts of E and
returns their count; every other alert row — EQUIPMENT_FAILURE alerts of E,
alerts of other equipment, already-resolved alerts — survives unchanged, no
row is added or removed, and equipment and logs are untouched.  When the
commit fails the whole batch rolls back: the result is count 0 and the store
is unchanged. -/
theorem C8_resolve_maintenance_alerts_frame (db : DB) (now : PyDateTime) (eid : Nat) :
    ((AlertService.resolve_maintenance_alerts db now true eid).1 =
      (db.alerts.filter (maintenanceAlertRow eid)).length) ∧
    ((AlertService.resolve_maintenance_alerts db now true eid).2.equipment = db.equipment) ∧
    ((AlertService.resolve_maintenance_alerts db now true eid).2.logs = db.logs) ∧
    ((AlertService.resolve_maintenance_alerts db now true eid).2.alerts.length =
      db.alerts.length) ∧
    (∀ a ∈ db.alerts, maintenanceAlertRow eid a = true →
      Alert.resolve_at now a ∈ (AlertService.resolve_maintenance_alerts db now true eid).2.alerts) ∧
    (∀ a ∈ db.alerts, maintenanceAlertRow eid a = false →
      a ∈ (AlertService.resolve_maintenance_alerts db now true eid).2.alerts) ∧
    (∀ a ∈ (AlertService.resolve_maintenance_alerts db now true eid).2.alerts,
      a ∈ db.alerts ∨ ∃ b, b ∈ db.alerts ∧ maintenanceAlertRow eid b = true ∧
        a = Alert.resolve_at now b) ∧
    (AlertService.resolve_maintenance_alerts db now false eid = (0, db)) := by
  rw [resolve_maintenance_alerts_commit_true db now eid]
  refine ⟨rfl, rfl, rfl, List.length_map .., ?_, ?_, ?_, ?_⟩
  · intro a ha hrow
    have := List.mem_map_of_mem
      (fun a => if maintenanceAlertRow eid a then Alert.resolve_at now a else a) ha
    dsimp only at this
    rw [if_pos hrow] at this
    exact this
  · intro a ha hrow
    have := List.mem_map_of_mem
      (fun a => if maintenanceAlertRow eid a then Alert.resolve_at now a else a) ha
    dsimp only at this
    rw [hrow] at this
    exact this
  · intro a ha
    obtain ⟨b, hb, heq⟩ := List.mem_map.mp ha
    by_cases hrow : maintenanceAlertRow eid b = true
    · rw [if_pos hrow] at heq
      exact Or.inr ⟨b, hb, hrow, heq.symm⟩
    · rw [if_neg hrow] at heq
      rw [← heq]
      exact Or.inl hb
  · unfold AlertService.resolve_maintenance_alerts
    dsimp only
    by_cases h : (db.alerts.filter (maintenanceAlertRow eid)).length > 0
    · rw [if_pos h]
      rfl
    · rw [if_neg h]
      rw [Nat.eq_zero_of_not_pos h]

/-- Concrete unresolved EQUIPMENT_FAILURE alert for equipment 1. -/
def alertFailureFixture : Alert :=
  ⟨2, some 1, AlertType.EQUIPMENT_FAILURE, AlertSeverity.CRITICAL, "f", 0, false, none⟩

/-- Concrete unresolved maintenance alert of another equipment (id 2). -/
def alertOtherEquipFixture : Alert :=
  ⟨3, some 2, AlertType.UPCOMING_MAINTENANCE, AlertSeverity.WARNING, "u", 0, false, none⟩

/-- Concrete already-resolved maintenance alert of equipment 1. -/
def alertResolvedMaintFixture : Alert :=
  ⟨4, some 1, AlertType.UPCOMING_MAINTENANCE, AlertSeverity.WARNING, "ru", 0, true, some 1⟩

/-- Concrete store exercising every frame case of C8. -/
def dbFixture3 : DB :=
  ⟨[eqFixture],
    [alertOverdueFixture, alertFailureFixture, alertOtherEquipFixture, alertResolvedMaintFixture],
    [], 5, 1⟩

/-- Witness for C8 at a concrete store: exactly the one unresolved overdue
alert of equipment 1 is resolved (count 1); the failure alert, the other
equipment's alert and the already-resolved alert survive unchanged; a failed
commit returns count 0 with the store untouched. -/
theorem C8_resolve_maintenance_alerts_frame_witness :
    (AlertService.resolve_maintenance_alerts dbFixture3 9 true 1).1 = 1 ∧
    Alert.resolve_at 9 alertOverdueFixture ∈
      (AlertService.resolve_maintenance_alerts dbFixture3 9 true 1).2.alerts ∧
    alertFailureFixture ∈ (AlertService.resolve_maintenance_alerts dbFixture3 9 true 1).2.alerts ∧
    alertOtherEquipFixture ∈ (AlertService.resolve_maintenance_alerts dbFixture3 9 true 1).2.alerts ∧
    alertResolvedMaintFixture ∈ (AlertService.resolve_maintenance_alerts dbFixture3 9 true 1).2.alerts ∧
    AlertService.resolve_maintenance_alerts dbFixture3 9 false 1 = (0, dbFixture3) := by
  have h := C8_resolve_maintenance_alerts_frame dbFixture3 9 1
  refine ⟨?_, ?_, ?_, ?_, ?_, h.2.2.2.2.2.2.2⟩
  · rw [h.1]
    decide
  · exact h.2.2.2.2.1 alertOverdueFixture (by decide) (by decide)
  · exact h.2.2.2.2.2.1 alertFailureFixture (by decide) (by decide)
  · exact h.2.2.2.2.2.1 alertOtherEquipFixture (by decide) (by decide)
  · exact h.2.2.2.2.2.1 alertResolvedMaintFixture (by decide) (by decide)

theorem resolve_maintenance_alerts_commit_false (db : DB) (now : PyDateTime) (eid : Nat) :
    AlertService.resolve_maintenance_alerts db now false eid = (0, db) := by
  unfold AlertService.resolve_maintenance_alerts
  dsimp only
  by_cases h : (db.alerts.filter (maintenanceAlertRow eid)).length > 0
  · rw [if_pos h]
    rfl
  · rw [if_neg h]
    rw [Nat.eq_zero_of_not_pos h]

theorem log_maintenance_success_path (db : DB) (now : PyDateTime) (ok2 : Bool) (eid : Nat)
    (pb : String) (notes : Option String) (T : PyDateTime) (e : Equipment)
    (hf : db.equipment.find? (fun x => decide (x.id = eid)) = some e)
    (hpb : pyStrip pb ≠ "") (hT : T ≤ now) :
    MaintenanceService.log_maintenance db now true ok2 eid pb notes (some T) =
      ((some (logEntry db now eid pb notes T), none),
        (AlertService.resolve_maintenance_alerts
          (logCommitDB db eid (logEntry db now eid pb notes T) (updatedEquipment now T e))
          now ok2 eid).2) := by
  unfold MaintenanceService.log_maintenance
  rw [hf]
  dsimp only
  simp only [Option.getD_some]
  rw [if_neg hpb, if_neg (not_lt.mpr hT)]
  rw [if_pos trivial]

theorem log_maintenance_commit1_false (db : DB) (now : PyDateTime) (ok2 : Bool) (eid : Nat)
    (pb : String) (notes : Option String) (pat : Option PyDateTime) :
    (MaintenanceService.log_maintenance db now false ok2 eid pb notes pat).2 = db := by
  unfold MaintenanceService.log_maintenance
  cases hf : db.equipment.find? (fun x => decide (x.id = eid)) with
  | none => rfl
  | some e =>
    dsimp only
    by_cases hpb : pyStrip pb = ""
    · rw [if_pos hpb]
    · rw [if_neg hpb]
      by_cases hfut : now < pat.getD now
      · rw [if_pos hfut]
      · rw [if_neg hfut]
        rfl

/-- C2 counterexample: `log_maintenance` commits the log append and equipment
update first and only then resolves the maintenance alerts in a second,
separate transaction.  With the first commit succeeding and the alert commit
failing, the call reports success, the maintenance log is recorded, yet the
equipment's unresolved OVERDUE_MAINTENANCE alert stays unresolved — the
partial outcome the claim rules out. -/
theorem C2_log_maintenance_atomicity_counterexample :
    (MaintenanceService.log_maintenance dbFixture 100 true false 1 "tech" none (some 50)).1.2 = none ∧
    (MaintenanceService.log_maintenance dbFixture 100 true false 1 "tech" none (some 50)).1.1.isSome = true ∧
    (MaintenanceService.log_maintenance dbFixture 100 true false 1 "tech" none (some 50)).2.logs.length = 1 ∧
    (MaintenanceService.log_maintenance dbFixture 100 true false 1 "tech" none (some 50)).2.alerts =
      [alertOverdueFixture] ∧
    alertOverdueFixture.resolved = false := by
  decide

/-- C2 (amended): the maintenance-log append and the equipment date update
persist all-or-nothing with each other — a failure of their commit leaves the
store untouched — but the resolution of the equipment's maintenance alerts
runs in a separate transaction after that commit: when it fails, the
maintenance stays recorded (and the call still reports success) while the
alerts remain exactly as before. -/
theorem C2_log_maintenance_atomicity_amended :
    (∀ (db : DB) (now : PyDateTime) (ok2 : Bool) (eid : Nat) (pb : String)
        (notes : Option String) (pat : Option PyDateTime),
      (MaintenanceService.log_maintenance db now false ok2 eid pb notes pat).2 = db) ∧
    (∀ (db : DB) (now : PyDateTime) (eid : Nat) (pb : String) (notes : Option String)
        (T : PyDateTime) (e : Equipment),
      db.equipment.find? (fun x => decide (x.id = eid)) = some e →
      pyStrip pb ≠ "" → T ≤ now →
      (MaintenanceService.log_maintenance db now true false eid pb notes (some T)).1 =
        (some (logEntry db now eid pb notes T), none) ∧
      (MaintenanceService.log_maintenance db now true false eid pb notes (some T)).2.alerts =
        db.alerts ∧
      (MaintenanceService.log_maintenance db now true false eid pb notes (some T)).2.logs =
        db.logs ++ [logEntry db now eid pb notes T]) := by
  refine ⟨log_maintenance_commit1_false, ?_⟩
  intro db now eid pb notes T e hf hpb hT
  rw [log_maintenance_success_path db now false eid pb notes T e hf hpb hT,
    resolve_maintenance_alerts_commit_false]
  exact ⟨rfl, rfl, rfl⟩

/-- Witness for C2 (amended) at a concrete input: a failed first commit has no
effect, and a failed alert commit leaves the log recorded with the alerts
untouched. -/
theorem C2_log_maintenance_atomicity_amended_witness :
    (MaintenanceService.log_maintenance dbFixture 100 false true 1 "tech" none (some 50)).2 =
      dbFixture ∧
    (MaintenanceService.log_maintenance dbFixture 100 true false 1 "tech" none (some 50)).1 =
      (some (logEntry dbFixture 100 1 "tech" none 50), none) ∧
    (MaintenanceService.log_maintenance dbFixture 100 true false 1 "tech" none (some 50)).2.alerts =
      dbFixture.alerts ∧
    (MaintenanceService.log_maintenance dbFixture 100 true false 1 "tech" none (some 50)).2.logs =
      dbFixture.logs ++ [logEntry dbFixture 100 1 "tech" none 50] := by
  have h := C2_log_maintenance_atomicity_amended
  have h2 := h.2 dbFixture 100 1 "tech" none 50 eqFixture (by decide) (by decide) (by decide)
  exact ⟨h.1 dbFixture 100 true 1 "tech" none (some 50), h2.1, h2.2.1, h2.2.2⟩

/-- C6: when both commits succeed, `log_maintenance` on an existing equipment
with a valid performer and a non-future `performedAt = T` appends the
maintenance-log entry with timestamp T, sets the equipment's last maintenance
date to date(T) and its next maintenance date to date(T) + interval, and every
alert of that equipment that is of a maintenance type in the resulting store
is resolved. -/
theorem C6_log_maintenance_success_postcondition (db : DB) (now : PyDateTime) (eid : Nat)
    (pb : String) (notes : Option String) (T : PyDateTime) (e : Equipment)
    (hf : db.equipment.find? (fun x => decide (x.id = eid)) = some e)
    (hpb : pyStrip pb ≠ "") (hT : T ≤ now) :
    (MaintenanceService.log_maintenance db now true true eid pb notes (some T)).1 =
      (some (logEntry db now eid pb notes T), none) ∧
    (MaintenanceService.log_maintenance db now true true eid pb notes (some T)).2.logs =
      db.logs ++ [logEntry db now eid pb notes T] ∧
    (logEntry db now eid pb notes T).performed_at = T ∧
    (MaintenanceService.log_maintenance db now true true eid pb notes (some T)).2.equipment.find?
      (fun x => decide (x.id = eid)) = some (updatedEquipment now T e) ∧
    (updatedEquipment now T e).last_maintenance_date = some (pythonDateOf T) ∧
    (updatedEquipment now T e).next_maintenance_date =
      pythonDateOf T + e.maintenance_interval ∧
    (∀ a ∈ (MaintenanceService.log_maintenance db now true true eid pb notes (some T)).2.alerts,
      a.equipment_id = some eid → isMaintenanceType a.alert_type = true → a.resolved = true) := by
  have haid : e.id = eid := by
    have := List.find?_some hf
    simpa using this
  rw [log_maintenance_success_path db now true eid pb notes T e hf hpb hT,
    resolve_maintenance_alerts_commit_true]
  refine ⟨rfl, rfl, rfl, ?_, rfl, rfl, ?_⟩
  · show (db.equipment.map (fun x => if x.id = eid then updatedEquipment now T e else x)).find?
      (fun x => decide (x.id = eid)) = some (updatedEquipment now T e)
    rw [find?_map_pred (fun x => if x.id = eid then updatedEquipment now T e else x)
      (fun x => decide (x.id = eid)) (fun x => ?_) db.equipment, hf, Option.map_some']
    · rw [if_pos haid]
    · dsimp only
      by_cases hx : x.id = eid
      · rw [if_pos hx]
        show decide ((updatedEquipment now T e).id = eid) = decide (x.id = eid)
        have hid : (updatedEquipment now T e).id = e.id := rfl
        rw [hid, haid, hx]
      · rw [if_neg hx]
  · intro a ha hid hty
    obtain ⟨b, hb, heq⟩ := List.mem_map.mp ha
    by_cases hrow : maintenanceAlertRow eid b = true
    · rw [if_pos hrow] at heq
      rw [← heq]
      rfl
    · rw [if_neg hrow] at heq
      subst heq
      cases hres : b.resolved with
      | true => rfl
      | false =>
        exfalso
        apply hrow
        unfold maintenanceAlertRow
        rw [hres, hid, hty]
        simp

/-- Witness for C6 at a concrete input: logging maintenance performed at
timestamp 50 (day 0) on equipment 1 with interval 90 appends the log entry,
sets last = day 0 and next = day 90, and leaves no unresolved maintenance
alert of equipment 1. -/
theorem C6_log_maintenance_success_postcondition_witness :
    (MaintenanceService.log_maintenance dbFixture3 100 true true 1 "tech" none (some 50)).1 =
      (some (logEntry dbFixture3 100 1 "tech" none 50), none) ∧
    (MaintenanceService.log_maintenance dbFixture3 100 true true 1 "tech" none (some 50)).2.equipment.find?
      (fun x => decide (x.id = 1)) = some (updatedEquipment 100 50 eqFixture) ∧
    (updatedEquipment 100 50 eqFixture).last_maintenance_date = some 0 ∧
    (updatedEquipment 100 50 eqFixture).next_maintenance_date = 90 ∧
    (∀ a ∈ (MaintenanceService.log_maintenance dbFixture3 100 true true 1 "tech" none (some 50)).2.alerts,
      a.equipment_id = some 1 → isMaintenanceType a.alert_type = true → a.resolved = true) := by
  have h := C6_log_maintenance_success_postcondition dbFixture3 100 1 "tech" none 50 eqFixture
    (by decide) (by decide) (by decide)
  exact ⟨h.1, h.2.2.2.1, by decide, by decide, h.2.2.2.2.2.2⟩

theorem typeCount_insertedDB (db : DB) (now : PyDateTime) (eid? : Option Nat) (t : AlertType)
    (sev : AlertSeverity) (msg : String) (ty : AlertType) :
    typeCount (insertedDB db now eid? t sev msg) ty =
      typeCount db ty + (if t = ty then 1 else 0) := by
  unfold typeCount insertedDB
  dsimp only
  rw [List.filter_append, List.length_append]
  congr 1
  by_cases h : t = ty
  · rw [if_pos h]
    simp [List.filter, insertedAlert, h]
  · rw [if_neg h]
    simp [List.filter, insertedAlert, h]

theorem create_maintenance_alert_typeCount (db : DB) (now : PyDateTime) (ok : Bool)
    (e : Nat) (t : AlertType) (dov dun : Option Int) (ty : AlertType) :
    typeCount (AlertService.create_maintenance_alert db now ok e t dov dun).2 ty =
      typeCount db ty +
        (if (AlertService.create_maintenance_alert db now ok e t dov dun).1 = true ∧ t = ty
          then 1 else 0) := by
  cases hcr : (AlertService.create_maintenance_alert db now ok e t dov dun).1 with
  | false =>
    rw [(create_maintenance_alert_spec db now ok e t dov dun).1 hcr]
    simp
  | true =>
    obtain ⟨sev, msg, h2⟩ := (create_maintenance_alert_spec db now ok e t dov dun).2 hcr
    rw [h2, typeCount_insertedDB]
    by_cases h : t = ty
    · simp [h]
    · simp [h]

theorem complianceStep_typeCount (today : PyDate) (now : PyDateTime) (ok : Bool)
    (acc : Nat × Nat × DB) (e : Equipment) :
    typeCount (complianceStep today now ok acc e).2.2 AlertType.UPCOMING_MAINTENANCE + acc.1 =
      typeCount acc.2.2 AlertType.UPCOMING_MAINTENANCE + (complianceStep today now ok acc e).1 ∧
    typeCount (complianceStep today now ok acc e).2.2 AlertType.OVERDUE_MAINTENANCE + acc.2.1 =
      typeCount acc.2.2 AlertType.OVERDUE_MAINTENANCE + (complianceStep today now ok acc e).2.1 := by
  unfold complianceStep
  dsimp only
  split
  · have hu := create_maintenance_alert_typeCount acc.2.2 now ok e.id AlertType.OVERDUE_MAINTENANCE
      (some ((Equipment.days_until_maintenance today e).natAbs : Int)) none AlertType.UPCOMING_MAINTENANCE
    have ho := create_maintenance_alert_typeCount acc.2.2 now ok e.id AlertType.OVERDUE_MAINTENANCE
      (some ((Equipment.days_until_maintenance today e).natAbs : Int)) none AlertType.OVERDUE_MAINTENANCE
    split
    · next hcr =>
      rw [hcr] at hu ho
      rw [if_neg (by simp)] at hu
      rw [if_pos ⟨rfl, rfl⟩] at ho
      exact ⟨by dsimp only; omega, by dsimp only; omega⟩
    · next hcr =>
      rw [Bool.not_eq_true] at hcr
      rw [hcr] at hu ho
      rw [if_neg (by simp)] at hu
      rw [if_neg (by simp)] at ho
      exact ⟨by dsimp only; omega, by dsimp only; omega⟩
  · split
    · have hu := create_maintenance_alert_typeCount acc.2.2 now ok e.id AlertType.UPCOMING_MAINTENANCE
        none (some (Equipment.days_until_maintenance today e)) AlertType.UPCOMING_MAINTENANCE
      have ho := create_maintenance_alert_typeCount acc.2.2 now ok e.id AlertType.UPCOMING_MAINTENANCE
        none (some (Equipment.days_until_maintenance today e)) AlertType.OVERDUE_MAINTENANCE
      split
      · next hcr =>
        rw [hcr] at hu ho
        rw [if_pos ⟨rfl, rfl⟩] at hu
        rw [if_neg (by simp)] at ho
        exact ⟨by dsimp only; omega, by dsimp only; omega⟩
      · next hcr =>
        rw [Bool.not_eq_true] at hcr
        rw [hcr] at hu ho
        rw [if_neg (by simp)] at hu
        rw [if_neg (by simp)] at ho
        exact ⟨by dsimp only; omega, by dsimp only; omega⟩
    · exact ⟨rfl, rfl⟩

theorem complianceLoop_typeCount (today : PyDate) (now : PyDateTime) (oracle : Nat → Bool) :
    ∀ (l : List Equipment) (i : Nat) (acc : Nat × Nat × DB),
      typeCount (complianceLoop today now oracle i acc l).2.2 AlertType.UPCOMING_MAINTENANCE + acc.1 =
        typeCount acc.2.2 AlertType.UPCOMING_MAINTENANCE +
          (complianceLoop today now oracle i acc l).1 ∧
      typeCount (complianceLoop today now oracle i acc l).2.2 AlertType.OVERDUE_MAINTENANCE + acc.2.1 =
        typeCount acc.2.2 AlertType.OVERDUE_MAINTENANCE +
          (complianceLoop today now oracle i acc l).2.1 := by
  intro l
  induction l with
  | nil => intro i acc; exact ⟨rfl, rfl⟩
  | cons e rest ih =>
    intro i acc
    simp only [complianceLoop]
    obtain ⟨su, so⟩ := complianceStep_typeCount today now (oracle i) acc e
    obtain ⟨lu, lo⟩ := ih (i + 1) (complianceStep today now (oracle i) acc e)
    constructor
    · omega
    · omega

/-- A store holding exactly one equipment row and no alerts or logs. -/
def singleEquipDB (e : Equipment) (na nl : Nat) : DB := ⟨[e], [], [], na, nl⟩

/-- The OVERDUE_MAINTENANCE alert one scan creates for a strictly-overdue
item: severity CRITICAL, message citing daysOverdue = |daysUntilMaintenance|. -/
def overdueScanAlert (e : Equipment) (na : Nat) (now : PyDateTime) (today : PyDate) : Alert :=
  ⟨na, some e.id, AlertType.OVERDUE_MAINTENANCE, AlertSeverity.CRITICAL,
    "OVERDUE: " ++ e.name ++ " (" ++ e.serial_number ++ ")" ++ "maintenance overdue by "
      ++ pyStr (some ((Equipment.days_until_maintenance today e).natAbs : Int)) ++ " days",
    now, false, none⟩

/-- The UPCOMING_MAINTENANCE alert one scan creates for an item due within the
7-day window: severity WARNING, message citing daysUntil = daysUntilMaintenance. -/
def upcomingScanAlert (e : Equipment) (na : Nat) (now : PyDateTime) (today : PyDate) : Alert :=
  ⟨na, some e.id, AlertType.UPCOMING_MAINTENANCE, AlertSeverity.WARNING,
    "UPCOMING: " ++ e.name ++ " (" ++ e.serial_number ++ ")" ++ "maintenance due in "
      ++ pyStr (some (Equipment.days_until_maintenance today e)) ++ " days",
    now, false, none⟩

theorem create_alert_no_dup (db : DB) (now : PyDateTime) (eid? : Option Nat)
    (t : AlertType) (sev : AlertSeverity) (msg : String) (hd : db.alerts = []) :
    AlertService.create_alert db now true eid? t sev msg =
      (some (insertedAlert db now eid? t sev msg), insertedDB db now eid? t sev msg) := by
  unfold AlertService.create_alert
  have hcd : Alert.check_duplicate db (eid?.getD 0) t = false := by
    unfold Alert.check_duplicate
    rw [hd]
    rfl
  rw [hcd, Bool.and_false, if_neg Bool.false_ne_true]
  rfl

theorem create_maintenance_alert_empty_overdue (db : DB) (now : PyDateTime) (eid : Nat)
    (e : Equipment) (dov : Option Int)
    (hfind : db.equipment.find? (fun x => decide (x.id = eid)) = some e)
    (hd : db.alerts = []) :
    AlertService.create_maintenance_alert db now true eid AlertType.OVERDUE_MAINTENANCE dov none =
      (true, insertedDB db now (some eid) AlertType.OVERDUE_MAINTENANCE AlertSeverity.CRITICAL
        ("OVERDUE: " ++ e.name ++ " (" ++ e.serial_number ++ ")" ++ "maintenance overdue by "
          ++ pyStr dov ++ " days")) := by
  unfold AlertService.create_maintenance_alert
  rw [hfind]
  dsimp only
  rw [create_alert_no_dup db now (some eid) _ _ _ hd]
  rfl

theorem create_maintenance_alert_empty_upcoming (db : DB) (now : PyDateTime) (eid : Nat)
    (e : Equipment) (dun : Option Int)
    (hfind : db.equipment.find? (fun x => decide (x.id = eid)) = some e)
    (hd : db.alerts = []) :
    AlertService.create_maintenance_alert db now true eid AlertType.UPCOMING_MAINTENANCE none dun =
      (true, insertedDB db now (some eid) AlertType.UPCOMING_MAINTENANCE AlertSeverity.WARNING
        ("UPCOMING: " ++ e.name ++ " (" ++ e.serial_number ++ ")" ++ "maintenance due in "
          ++ pyStr dun ++ " days")) := by
  unfold AlertService.create_maintenance_alert
  rw [hfind]
  dsimp only
  rw [create_alert_no_dup db now (some eid) _ _ _ hd]
  rfl

theorem singleEquipDB_find (e : Equipment) (na nl : Nat) :
    (singleEquipDB e na nl).equipment.find? (fun x => decide (x.id = e.id)) = some e := by
  show List.find? (fun x => decide (x.id = e.id)) [e] = some e
  rw [List.find?_cons_of_pos _ (by simp)]

/-- C4: one scan invocation reports total equipment scanned, the scan
timestamp, and the counts of upcoming/overdue alerts actually created (the
store gains exactly that many alerts of each type); the overdue and upcoming
branch conditions are mutually exclusive; and on a single-equipment store a
scan creates an OVERDUE_MAINTENANCE alert citing |daysUntilMaintenance|
exactly when next date < today, an UPCOMING_MAINTENANCE alert citing
daysUntilMaintenance exactly when today ≤ next date ≤ today + 7 (both ends
inclusive), and takes no action otherwise. -/
theorem C4_compliance_classification :
    (∀ (db : DB) (today : PyDate) (now : PyDateTime) (oracle : Nat → Bool),
      (MaintenanceService.check_maintenance_compliance db today now oracle).1.total_equipment =
        db.equipment.length ∧
      (MaintenanceService.check_maintenance_compliance db today now oracle).1.checked_at = now ∧
      typeCount (MaintenanceService.check_maintenance_compliance db today now oracle).2
          AlertType.UPCOMING_MAINTENANCE =
        typeCount db AlertType.UPCOMING_MAINTENANCE +
          (MaintenanceService.check_maintenance_compliance db today now oracle).1.upcoming_alerts_created ∧
      typeCount (MaintenanceService.check_maintenance_compliance db today now oracle).2
          AlertType.OVERDUE_MAINTENANCE =
        typeCount db AlertType.OVERDUE_MAINTENANCE +
          (MaintenanceService.check_maintenance_compliance db today now oracle).1.overdue_alerts_created) ∧
    (∀ (e : Equipment) (today : PyDate),
      ¬(e.next_maintenance_date < today ∧
        (today ≤ e.next_maintenance_date ∧ e.next_maintenance_date ≤ today + 7))) ∧
    (∀ (e : Equipment) (today : PyDate) (now : PyDateTime) (na nl : Nat),
      (e.next_maintenance_date < today →
        MaintenanceService.check_maintenance_compliance (singleEquipDB e na nl) today now
            (fun _ => true) =
          (⟨1, 0, 1, now⟩, ⟨[e], [overdueScanAlert e na now today], [], na + 1, nl⟩)) ∧
      (today ≤ e.next_maintenance_date ∧ e.next_maintenance_date ≤ today + 7 →
        MaintenanceService.check_maintenance_compliance (singleEquipDB e na nl) today now
            (fun _ => true) =
          (⟨1, 1, 0, now⟩, ⟨[e], [upcomingScanAlert e na now today], [], na + 1, nl⟩)) ∧
      (¬e.next_maintenance_date < today →
        ¬(today ≤ e.next_maintenance_date ∧ e.next_maintenance_date ≤ today + 7) →
        MaintenanceService.check_maintenance_compliance (singleEquipDB e na nl) today now
            (fun _ => true) =
          (⟨1, 0, 0, now⟩, singleEquipDB e na nl))) := by
  refine ⟨?_, ?_, ?_⟩
  · intro db today now oracle
    obtain ⟨hu, ho⟩ := complianceLoop_typeCount today now oracle db.equipment 0 (0, 0, db)
    dsimp only at hu ho
    refine ⟨rfl, rfl, ?_, ?_⟩
    · show typeCount (complianceLoop today now oracle 0 (0, 0, db) db.equipment).2.2
          AlertType.UPCOMING_MAINTENANCE =
        typeCount db AlertType.UPCOMING_MAINTENANCE +
          (complianceLoop today now oracle 0 (0, 0, db) db.equipment).1
      simpa using hu
    · show typeCount (complianceLoop today now oracle 0 (0, 0, db) db.equipment).2.2
          AlertType.OVERDUE_MAINTENANCE =
        typeCount db AlertType.OVERDUE_MAINTENANCE +
          (complianceLoop today now oracle 0 (0, 0, db) db.equipment).2.1
      simpa using ho
  · rintro e today ⟨h1, h2, -⟩
    exact absurd h2 (not_le.mpr h1)
  · intro e today now na nl
    have hfind := singleEquipDB_find e na nl
    refine ⟨?_, ?_, ?_⟩
    · intro h
      unfold MaintenanceService.check_maintenance_compliance
      dsimp only
      simp only [complianceLoop]
      unfold complianceStep
      dsimp only
      rw [if_pos h]
      rw [create_maintenance_alert_empty_overdue (singleEquipDB e na nl) now e.id e _ hfind rfl]
      rfl
    · intro hwin
      unfold MaintenanceService.check_maintenance_compliance
      dsimp only
      simp only [complianceLoop]
      unfold complianceStep
      dsimp only
      rw [if_neg (not_lt.mpr hwin.1), if_pos hwin]
      rw [create_maintenance_alert_empty_upcoming (singleEquipDB e na nl) now e.id e _ hfind rfl]
      rfl
    · intro h1 h2
      unfold MaintenanceService.check_maintenance_compliance
      dsimp only
      simp only [complianceLoop]
      unfold complianceStep
      dsimp only
      rw [if_neg h1, if_neg h2]
      rfl

/-- Witness for C4 at a concrete equipment (next maintenance day 0): today = 5
is strictly overdue, today = -3 puts day 0 inside the 7-day window, today =
-20 is compliant; and a scan of a store reports its equipment count. -/
theorem C4_compliance_classification_witness :
    MaintenanceService.check_maintenance_compliance (singleEquipDB eqFixture 7 3) 5 11
        (fun _ => true) =
      (⟨1, 0, 1, 11⟩, ⟨[eqFixture], [overdueScanAlert eqFixture 7 11 5], [], 8, 3⟩) ∧
    MaintenanceService.check_maintenance_compliance (singleEquipDB eqFixture 7 3) (-3) 11
        (fun _ => true) =
      (⟨1, 1, 0, 11⟩, ⟨[eqFixture], [upcomingScanAlert eqFixture 7 11 (-3)], [], 8, 3⟩) ∧
    MaintenanceService.check_maintenance_compliance (singleEquipDB eqFixture 7 3) (-20) 11
        (fun _ => true) =
      (⟨1, 0, 0, 11⟩, singleEquipDB eqFixture 7 3) ∧
    (MaintenanceService.check_maintenance_compliance dbFixture3 99 11
        (fun _ => true)).1.total_equipment = 1 := by
  have h := C4_compliance_classification
  refine ⟨(h.2.2 eqFixture 5 11 7 3).1 (by decide),
    (h.2.2 eqFixture (-3) 11 7 3).2.1 (by decide),
    (h.2.2 eqFixture (-20) 11 7 3).2.2 (by decide) (by decide), ?_⟩
  rw [(h.1 dbFixture3 99 11 (fun _ => true)).1]
  decide

/-- Store with unresolved alerts of all three severities plus a resolved one:
CRITICAL created at 1, WARNING at 2, INFO at 3, resolved CRITICAL at 4,
WARNING at 5. -/
def dbFixture9 : DB :=
  ⟨[],
    [⟨1, some 1, AlertType.EQUIPMENT_FAILURE, AlertSeverity.CRITICAL, "c", 1, false, none⟩,
     ⟨2, some 2, AlertType.UPCOMING_MAINTENANCE, AlertSeverity.WARNING, "w1", 2, false, none⟩,
     ⟨3, some 3, AlertType.UPCOMING_MAINTENANCE, AlertSeverity.INFO, "i", 3, false, none⟩,
     ⟨4, some 4, AlertType.EQUIPMENT_FAILURE, AlertSeverity.CRITICAL, "cr", 4, true, some 9⟩,
     ⟨5, some 5, AlertType.OVERDUE_MAINTENANCE, AlertSeverity.WARNING, "w2", 5, false, none⟩],
    [], 6, 1⟩

/-- C9 code-bug evidence: the severity column stores the enum name string,
and `ORDER BY severity DESC` sorts those strings lexicographically, so
descending order puts WARNING before INFO before CRITICAL — the most severe
alerts sort last, contradicting both the claim and the code's own comment
"Order: CRITICAL first".  Within equal severity the newest-first ordering and
the exclusion of resolved alerts do hold, as the evaluation shows. -/
theorem C9_get_unresolved_alerts_order_eval :
    (AlertService.get_unresolved_alerts dbFixture9 none).map (fun a => a.id) = [5, 2, 3, 1] ∧
    (AlertService.get_unresolved_alerts dbFixture9 none).map (fun a => a.severity) =
      [AlertSeverity.WARNING, AlertSeverity.WARNING, AlertSeverity.INFO, AlertSeverity.CRITICAL] := by
  decide
